import Mathlib

/-!
Shallow embedding of the URBE starter-kit Solidity contracts
(URBEToken.sol, TokenFactory.sol, TokenRegistry.sol) and proofs about them.

Conventions used throughout:
* `Addr` is `Nat`; the zero address is `0`.
* `uint256` values are `Nat`; Solidity 0.8 checked arithmetic is modelled
  explicitly where underflow matters (see `setTokenVerification`).
* A reverting call is an `Except.error e`: the EVM rolls every storage write
  back, so an error result leaves the pre-state as the state of record.
* Solidity `mapping`s are total functions returning the zero value of the
  value type, exactly as EVM storage does.
-/

abbrev Addr := Nat

/-- The largest uint256, used by the OpenZeppelin infinite-allowance case. -/
def UINT256MAX : Nat := 2 ^ 256 - 1

/-- One Solidity guard `if (c) revert e;`: stop with `e` when `c` holds,
otherwise continue with `k`. -/
def require {E A : Type} (c : Prop) [Decidable c] (e : E) (k : Except E A) :
    Except E A :=
  if c then .error e else k

/-- A guard chain succeeds exactly when the guard fails and the rest
succeeds. -/
theorem require_ok {E A : Type} (c : Prop) [Decidable c] (e : E)
    (k : Except E A) (x : A) : require c e k = .ok x ↔ ¬c ∧ k = .ok x := by
  unfold require
  split <;> simp_all

/-- How a guard chain produces an error. -/
theorem require_error {E A : Type} (c : Prop) [Decidable c] (e : E)
    (k : Except E A) (e' : E) :
    require c e k = .error e' ↔ (c ∧ e = e') ∨ (¬c ∧ k = .error e') := by
  unfold require
  split <;> simp_all

/-- A low-level call that must return data: revert with `e` on `none`,
continue on `some`. -/
def requireSome {E A B : Type} (o : Option A) (e : E) (k : A → Except E B) :
    Except E B :=
  match o with
  | none => .error e
  | some a => k a

/-- Success condition of `requireSome`. -/
theorem requireSome_ok {E A B : Type} (o : Option A) (e : E)
    (k : A → Except E B) (x : B) :
    requireSome o e k = .ok x ↔ ∃ a, o = some a ∧ k a = .ok x := by
  cases o <;> simp [requireSome]

/-- Error condition of `requireSome`. -/
theorem requireSome_error {E A B : Type} (o : Option A) (e : E)
    (k : A → Except E B) (e' : E) :
    requireSome o e k = .error e' ↔
      (o = none ∧ e = e') ∨ (∃ a, o = some a ∧ k a = .error e') := by
  cases o <;> simp [requireSome]

namespace URBEToken

/-- The three named roles of URBEToken plus the OpenZeppelin default admin role. -/
inductive Role
  | minter
  | burner
  | pauser
  | admin
  deriving DecidableEq, Repr

/-- Custom errors of URBEToken.sol plus the OpenZeppelin errors its base
classes can raise. -/
inductive Err
  | MintingDisabled
  | BurningDisabled
  | PausingDisabled
  | MaxSupplyExceeded
  | ZeroAmount
  | ZeroAddress
  | InsufficientBalance
  | OwnableUnauthorizedAccount
  | OwnableInvalidOwner
  | AccessControlUnauthorized
  | EnforcedPause
  | ExpectedPause
  | ERC20InvalidSender
  | ERC20InvalidReceiver
  | ERC20InvalidSpender
  | ERC20InsufficientBalance
  | ERC20InsufficientAllowance
  deriving DecidableEq, Repr

/-- Storage of one URBEToken instance: ERC20 storage, Ownable owner,
Pausable flag, AccessControl role table, and URBEToken's own variables. -/
structure TokenState where
  name : String
  symbol : String
  owner : Addr
  totalSupply : Nat
  maxSupply : Nat
  mintingEnabled : Bool
  burningEnabled : Bool
  pausingEnabled : Bool
  paused : Bool
  balances : Addr → Nat
  allowances : Addr → Addr → Nat
  roles : Role → Addr → Bool

/-- The URBEToken constructor.  The Ownable base constructor runs first and
rejects a zero owner with OwnableInvalidOwner; the body then checks
maxSupply_ and initialSupply, grants all four roles to the owner and mints
the initial supply to the owner. -/
def deploy (name_ symbol_ : String) (initialSupply maxSupply_ : Nat)
    (initialOwner : Addr) (mintingEnabled_ burningEnabled_ pausingEnabled_ : Bool) :
    Except Err TokenState :=
  if initialOwner = 0 then .error .OwnableInvalidOwner
  else if maxSupply_ = 0 then .error .ZeroAmount
  else if maxSupply_ < initialSupply then .error .MaxSupplyExceeded
  else .ok
    { name := name_
      symbol := symbol_
      owner := initialOwner
      totalSupply := initialSupply
      maxSupply := maxSupply_
      mintingEnabled := mintingEnabled_
      burningEnabled := burningEnabled_
      pausingEnabled := pausingEnabled_
      paused := false
      balances := fun a => if a = initialOwner then initialSupply else 0
      allowances := fun _ _ => 0
      roles := fun _ a => decide (a = initialOwner) }

/-- Internal `_mintTokens`: guard chain in source order, then `_mint`. -/
def _mintTokens (s : TokenState) (to_ : Addr) (amount : Nat) : Except Err TokenState :=
  if s.mintingEnabled = false then .error .MintingDisabled
  else if to_ = 0 then .error .ZeroAddress
  else if amount = 0 then .error .ZeroAmount
  else if s.maxSupply < s.totalSupply + amount then .error .MaxSupplyExceeded
  else .ok
    { s with
      totalSupply := s.totalSupply + amount
      balances := fun a => if a = to_ then s.balances a + amount else s.balances a }

/-- Solidity `mint`: onlyOwner, whenNotPaused, then `_mintTokens`. -/
def mint (s : TokenState) (caller to_ : Addr) (amount : Nat) : Except Err TokenState :=
  if caller ≠ s.owner then .error .OwnableUnauthorizedAccount
  else if s.paused then .error .EnforcedPause
  else _mintTokens s to_ amount

/-- Solidity `mintByMinter`: onlyRole(MINTER_ROLE), whenNotPaused, then `_mintTokens`. -/
def mintByMinter (s : TokenState) (caller to_ : Addr) (amount : Nat) : Except Err TokenState :=
  if s.roles .minter caller = false then .error .AccessControlUnauthorized
  else if s.paused then .error .EnforcedPause
  else _mintTokens s to_ amount

/-- Internal `_burnTokens` (burn from msg.sender). -/
def _burnTokens (s : TokenState) (from_ : Addr) (amount : Nat) : Except Err TokenState :=
  if s.burningEnabled = false then .error .BurningDisabled
  else if amount = 0 then .error .ZeroAmount
  else if s.balances from_ < amount then .error .InsufficientBalance
  else .ok
    { s with
      totalSupply := s.totalSupply - amount
      balances := fun a => if a = from_ then s.balances a - amount else s.balances a }

/-- Internal `_burnTokensFrom` (role-gated burn from an arbitrary address). -/
def _burnTokensFrom (s : TokenState) (from_ : Addr) (amount : Nat) : Except Err TokenState :=
  if s.burningEnabled = false then .error .BurningDisabled
  else if from_ = 0 then .error .ZeroAddress
  else if amount = 0 then .error .ZeroAmount
  else if s.balances from_ < amount then .error .InsufficientBalance
  else .ok
    { s with
      totalSupply := s.totalSupply - amount
      balances := fun a => if a = from_ then s.balances a - amount else s.balances a }

/-- Solidity `burn`: whenNotPaused, then `_burnTokens msg.sender`. -/
def burn (s : TokenState) (caller : Addr) (amount : Nat) : Except Err TokenState :=
  if s.paused then .error .EnforcedPause
  else _burnTokens s caller amount

/-- Solidity `burnFrom`: onlyRole(BURNER_ROLE), whenNotPaused, then `_burnTokensFrom`. -/
def burnFrom (s : TokenState) (caller from_ : Addr) (amount : Nat) : Except Err TokenState :=
  if s.roles .burner caller = false then .error .AccessControlUnauthorized
  else if s.paused then .error .EnforcedPause
  else _burnTokensFrom s from_ amount

/-- Solidity `pause`: onlyRole(PAUSER_ROLE), whenNotPaused, pausingEnabled gate. -/
def pause (s : TokenState) (caller : Addr) : Except Err TokenState :=
  if s.roles .pauser caller = false then .error .AccessControlUnauthorized
  else if s.paused then .error .EnforcedPause
  else if s.pausingEnabled = false then .error .PausingDisabled
  else .ok { s with paused := true }

/-- Solidity `unpause`: onlyRole(PAUSER_ROLE), whenPaused, pausingEnabled gate. -/
def unpause (s : TokenState) (caller : Addr) : Except Err TokenState :=
  if s.roles .pauser caller = false then .error .AccessControlUnauthorized
  else if s.paused = false then .error .ExpectedPause
  else if s.pausingEnabled = false then .error .PausingDisabled
  else .ok { s with paused := false }

/-- Solidity `toggleMinting` (onlyOwner). -/
def toggleMinting (s : TokenState) (caller : Addr) (enabled : Bool) : Except Err TokenState :=
  if caller ≠ s.owner then .error .OwnableUnauthorizedAccount
  else .ok { s with mintingEnabled := enabled }

/-- Solidity `toggleBurning` (onlyOwner). -/
def toggleBurning (s : TokenState) (caller : Addr) (enabled : Bool) : Except Err TokenState :=
  if caller ≠ s.owner then .error .OwnableUnauthorizedAccount
  else .ok { s with burningEnabled := enabled }

/-- Solidity `togglePausing` (onlyOwner). -/
def togglePausing (s : TokenState) (caller : Addr) (enabled : Bool) : Except Err TokenState :=
  if caller ≠ s.owner then .error .OwnableUnauthorizedAccount
  else .ok { s with pausingEnabled := enabled }

/-- Common body of the six grant/revoke role functions (onlyOwner, zero check). -/
def setRole (s : TokenState) (caller : Addr) (r : Role) (a : Addr) (grant : Bool) :
    Except Err TokenState :=
  if caller ≠ s.owner then .error .OwnableUnauthorizedAccount
  else if a = 0 then .error .ZeroAddress
  else .ok { s with roles := fun r' a' => if r' = r ∧ a' = a then grant else s.roles r' a' }

/-- OpenZeppelin ERC20 `transfer`, with URBEToken's `_update` override adding
the whenNotPaused gate. -/
def transfer (s : TokenState) (caller to_ : Addr) (value : Nat) : Except Err TokenState :=
  if caller = 0 then .error .ERC20InvalidSender
  else if to_ = 0 then .error .ERC20InvalidReceiver
  else if s.paused then .error .EnforcedPause
  else if s.balances caller < value then .error .ERC20InsufficientBalance
  else .ok
    { s with
      balances := fun a =>
        if a = caller then s.balances caller - value
        else if a = to_ then s.balances a + value
        else s.balances a }

/-- OpenZeppelin ERC20 `approve`. -/
def approve (s : TokenState) (caller spender : Addr) (value : Nat) : Except Err TokenState :=
  if caller = 0 then .error .ERC20InvalidSender
  else if spender = 0 then .error .ERC20InvalidSpender
  else .ok
    { s with
      allowances := fun o sp =>
        if o = caller ∧ sp = spender then value else s.allowances o sp }

/-- OpenZeppelin ERC20 `transferFrom`: spend allowance (with the infinite
allowance short-circuit), then transfer. -/
def transferFrom (s : TokenState) (caller from_ to_ : Addr) (value : Nat) :
    Except Err TokenState :=
  if s.allowances from_ caller = UINT256MAX then
    transfer s from_ to_ value
  else if s.allowances from_ caller < value then .error .ERC20InsufficientAllowance
  else
    match transfer s from_ to_ value with
    | .error e => .error e
    | .ok s' =>
      .ok
        { s' with
          allowances := fun o sp =>
            if o = from_ ∧ sp = caller then s.allowances from_ caller - value
            else s'.allowances o sp }

/-- OpenZeppelin Ownable `transferOwnership`. -/
def transferOwnership (s : TokenState) (caller newOwner : Addr) : Except Err TokenState :=
  if caller ≠ s.owner then .error .OwnableUnauthorizedAccount
  else if newOwner = 0 then .error .OwnableInvalidOwner
  else .ok { s with owner := newOwner }

/-- OpenZeppelin Ownable `renounceOwnership`. -/
def renounceOwnership (s : TokenState) (caller : Addr) : Except Err TokenState :=
  if caller ≠ s.owner then .error .OwnableUnauthorizedAccount
  else .ok { s with owner := 0 }

/-- The state-changing entry points of a deployed URBEToken. -/
inductive Op
  | mint (caller to_ : Addr) (amount : Nat)
  | mintByMinter (caller to_ : Addr) (amount : Nat)
  | burn (caller : Addr) (amount : Nat)
  | burnFrom (caller from_ : Addr) (amount : Nat)
  | pause (caller : Addr)
  | unpause (caller : Addr)
  | toggleMinting (caller : Addr) (enabled : Bool)
  | toggleBurning (caller : Addr) (enabled : Bool)
  | togglePausing (caller : Addr) (enabled : Bool)
  | setRole (caller : Addr) (r : Role) (a : Addr) (grant : Bool)
  | transfer (caller to_ : Addr) (value : Nat)
  | approve (caller spender : Addr) (value : Nat)
  | transferFrom (caller from_ to_ : Addr) (value : Nat)
  | transferOwnership (caller newOwner : Addr)
  | renounceOwnership (caller : Addr)

/-- One transaction against a deployed URBEToken. -/
def tstep (s : TokenState) : Op → Except Err TokenState
  | .mint caller to_ amount => mint s caller to_ amount
  | .mintByMinter caller to_ amount => mintByMinter s caller to_ amount
  | .burn caller amount => burn s caller amount
  | .burnFrom caller from_ amount => burnFrom s caller from_ amount
  | .pause caller => pause s caller
  | .unpause caller => unpause s caller
  | .toggleMinting caller enabled => toggleMinting s caller enabled
  | .toggleBurning caller enabled => toggleBurning s caller enabled
  | .togglePausing caller enabled => togglePausing s caller enabled
  | .setRole caller r a grant => setRole s caller r a grant
  | .transfer caller to_ value => transfer s caller to_ value
  | .approve caller spender value => approve s caller spender value
  | .transferFrom caller from_ to_ value => transferFrom s caller from_ to_ value
  | .transferOwnership caller newOwner => transferOwnership s caller newOwner
  | .renounceOwnership caller => renounceOwnership s caller

/-- States a URBEToken instance can actually be in: the constructor result,
closed under successful transactions. -/
inductive Reachable : TokenState → Prop
  | deployed (n sym : String) (i m : Nat) (o : Addr) (me be pe : Bool) (s : TokenState) :
      deploy n sym i m o me be pe = .ok s → Reachable s
  | step (s : TokenState) (op : Op) (s' : TokenState) :
      Reachable s → tstep s op = .ok s' → Reachable s'

end URBEToken

namespace TokenFactory

/-- Per-token record the factory stores at deployment (TokenInfo struct). -/
structure TokenInfo where
  tokenAddress : Addr
  name : String
  symbol : String
  initialSupply : Nat
  maxSupply : Nat
  creator : Addr
  createdAt : Nat
  mintingEnabled : Bool
  burningEnabled : Bool
  pausingEnabled : Bool
  deriving DecidableEq, Repr

/-- Custom errors of TokenFactory.sol plus the Ownable base errors. -/
inductive Err
  | FactoryPaused
  | EmptyName
  | EmptySymbol
  | ZeroInitialSupply
  | ZeroMaxSupply
  | InitialSupplyExceedsMax
  | MaxTokensPerCreatorExceeded
  | InsufficientDeploymentFee
  | InvalidTokenAddress
  | NoTokensFound
  | IndexOutOfBounds
  | OwnableUnauthorizedAccount
  | OwnableInvalidOwner
  | EthTransferFailed
  deriving DecidableEq, Repr

/-- Storage of the TokenFactory contract.  `nextTokenAddr` models the fresh
addresses the EVM CREATE instruction hands out: each deployment consumes one,
and every address at or above it carries no code, hence no record. -/
structure FactoryState where
  owner : Addr
  tokensByCreator : Addr → List Addr
  tokenInfo : Addr → Option TokenInfo
  allTokens : List Addr
  totalTokensDeployed : Nat
  maxTokensPerCreator : Nat
  deploymentFee : Nat
  factoryPaused : Bool
  balance : Nat
  nextTokenAddr : Addr

/-- The TokenFactory constructor.  The Ownable base constructor rejects a zero
owner first, which makes the body's own zero check unreachable. -/
def deployFactory (initialOwner initialDeploymentFee initialMaxTokensPerCreator : Nat) :
    Except Err FactoryState :=
  if initialOwner = 0 then .error .OwnableInvalidOwner
  else .ok
    { owner := initialOwner
      tokensByCreator := fun _ => []
      tokenInfo := fun _ => none
      allTokens := []
      totalTokensDeployed := 0
      maxTokensPerCreator := initialMaxTokensPerCreator
      deploymentFee := initialDeploymentFee
      factoryPaused := false
      balance := 0
      nextTokenAddr := 1 }

/-- Internal `_deployToken`: the guard chain in source order, then the
URBEToken CREATE (which cannot revert here: its three constructor guards are
implied by the factory's own checks), then the bookkeeping writes. -/
def _deployToken (s : FactoryState) (msgSender msgValue : Nat) (name symbol : String)
    (initialSupply maxSupply : Nat) (tokenOwner : Addr)
    (mintingEnabled burningEnabled pausingEnabled : Bool) (timestamp : Nat) :
    Except Err (FactoryState × Addr) :=
  require (s.factoryPaused = true) .FactoryPaused <|
  require (name.length = 0) .EmptyName <|
  require (symbol.length = 0) .EmptySymbol <|
  require (initialSupply = 0) .ZeroInitialSupply <|
  require (maxSupply = 0) .ZeroMaxSupply <|
  require (maxSupply < initialSupply) .InitialSupplyExceedsMax <|
  require (tokenOwner = 0) .InvalidTokenAddress <|
  require (msgValue < s.deploymentFee) .InsufficientDeploymentFee <|
  require (s.maxTokensPerCreator ≤ (s.tokensByCreator msgSender).length)
    .MaxTokensPerCreatorExceeded <|
    let tokenAddress := s.nextTokenAddr
    let info : TokenInfo :=
      { tokenAddress := tokenAddress
        name := name
        symbol := symbol
        initialSupply := initialSupply
        maxSupply := maxSupply
        creator := msgSender
        createdAt := timestamp
        mintingEnabled := mintingEnabled
        burningEnabled := burningEnabled
        pausingEnabled := pausingEnabled }
    .ok
      ({ s with
         tokenInfo := fun a => if a = tokenAddress then some info else s.tokenInfo a
         tokensByCreator := fun a =>
           if a = msgSender then s.tokensByCreator a ++ [tokenAddress]
           else s.tokensByCreator a
         allTokens := s.allTokens ++ [tokenAddress]
         totalTokensDeployed := s.totalTokensDeployed + 1
         balance := s.balance + msgValue
         nextTokenAddr := s.nextTokenAddr + 1 }, tokenAddress)

/-- Solidity `deployToken`: the caller becomes the token owner. -/
def deployToken (s : FactoryState) (caller value : Nat) (name symbol : String)
    (initialSupply maxSupply : Nat) (mintingEnabled burningEnabled pausingEnabled : Bool)
    (timestamp : Nat) : Except Err (FactoryState × Addr) :=
  _deployToken s caller value name symbol initialSupply maxSupply caller
    mintingEnabled burningEnabled pausingEnabled timestamp

/-- Solidity `deployTokenWithOwner`: a chosen address becomes the token owner. -/
def deployTokenWithOwner (s : FactoryState) (caller value : Nat) (name symbol : String)
    (initialSupply maxSupply : Nat) (tokenOwner : Addr)
    (mintingEnabled burningEnabled pausingEnabled : Bool) (timestamp : Nat) :
    Except Err (FactoryState × Addr) :=
  _deployToken s caller value name symbol initialSupply maxSupply tokenOwner
    mintingEnabled burningEnabled pausingEnabled timestamp

/-- Solidity `setDeploymentFee` (onlyOwner). -/
def setDeploymentFee (s : FactoryState) (caller newFee : Nat) : Except Err FactoryState :=
  if caller ≠ s.owner then .error .OwnableUnauthorizedAccount
  else .ok { s with deploymentFee := newFee }

/-- Solidity `setMaxTokensPerCreator` (onlyOwner). -/
def setMaxTokensPerCreator (s : FactoryState) (caller newMax : Nat) :
    Except Err FactoryState :=
  if caller ≠ s.owner then .error .OwnableUnauthorizedAccount
  else .ok { s with maxTokensPerCreator := newMax }

/-- Solidity `setFactoryPaused` (onlyOwner). -/
def setFactoryPaused (s : FactoryState) (caller : Nat) (paused : Bool) :
    Except Err FactoryState :=
  if caller ≠ s.owner then .error .OwnableUnauthorizedAccount
  else .ok { s with factoryPaused := paused }

/-- Solidity `withdrawFees` (onlyOwner): zero-recipient and balance checks, then an
ETH send; a failing send reverts the whole call, so the success path is the
only one that leaves a new state. -/
def withdrawFees (s : FactoryState) (caller amount to_ : Nat) : Except Err FactoryState :=
  if caller ≠ s.owner then .error .OwnableUnauthorizedAccount
  else if to_ = 0 then .error .InvalidTokenAddress
  else if s.balance < amount then .error .InsufficientDeploymentFee
  else .ok { s with balance := s.balance - amount }

/-- Ownable `transferOwnership`. -/
def transferOwnership (s : FactoryState) (caller newOwner : Addr) :
    Except Err FactoryState :=
  if caller ≠ s.owner then .error .OwnableUnauthorizedAccount
  else if newOwner = 0 then .error .OwnableInvalidOwner
  else .ok { s with owner := newOwner }

/-- Ownable `renounceOwnership`. -/
def renounceOwnership (s : FactoryState) (caller : Addr) : Except Err FactoryState :=
  if caller ≠ s.owner then .error .OwnableUnauthorizedAccount
  else .ok { s with owner := 0 }

/-- The state-changing entry points of the factory.  `receiveEth` is the
plain `receive()` function. -/
inductive Op
  | deployToken (caller value : Nat) (name symbol : String) (i m : Nat)
      (me be pe : Bool) (timestamp : Nat)
  | deployTokenWithOwner (caller value : Nat) (name symbol : String) (i m : Nat)
      (tokenOwner : Addr) (me be pe : Bool) (timestamp : Nat)
  | setDeploymentFee (caller newFee : Nat)
  | setMaxTokensPerCreator (caller newMax : Nat)
  | setFactoryPaused (caller : Nat) (paused : Bool)
  | withdrawFees (caller amount to_ : Nat)
  | transferOwnership (caller newOwner : Addr)
  | renounceOwnership (caller : Addr)
  | receiveEth (value : Nat)

/-- Whether an operation is one of the two deployment entry points. -/
def Op.isDeploy : Op → Bool
  | .deployToken .. => true
  | .deployTokenWithOwner .. => true
  | _ => false

/-- One transaction against the factory. -/
def fstep (s : FactoryState) : Op → Except Err FactoryState
  | .deployToken caller value name symbol i m me be pe ts =>
      (deployToken s caller value name symbol i m me be pe ts).map Prod.fst
  | .deployTokenWithOwner caller value name symbol i m o me be pe ts =>
      (deployTokenWithOwner s caller value name symbol i m o me be pe ts).map Prod.fst
  | .setDeploymentFee caller newFee => setDeploymentFee s caller newFee
  | .setMaxTokensPerCreator caller newMax => setMaxTokensPerCreator s caller newMax
  | .setFactoryPaused caller paused => setFactoryPaused s caller paused
  | .withdrawFees caller amount to_ => withdrawFees s caller amount to_
  | .transferOwnership caller newOwner => transferOwnership s caller newOwner
  | .renounceOwnership caller => renounceOwnership s caller
  | .receiveEth value => .ok { s with balance := s.balance + value }

/-- States the factory can actually be in. -/
inductive FReachable : FactoryState → Prop
  | deployed (o fee mx : Nat) (s : FactoryState) :
      deployFactory o fee mx = .ok s → FReachable s
  | step (s : FactoryState) (op : Op) (s' : FactoryState) :
      FReachable s → fstep s op = .ok s' → FReachable s'

end TokenFactory

namespace TokenRegistry

/-- TokenMetadata struct of TokenRegistry.sol. -/
structure TokenMetadata where
  tokenAddress : Addr
  name : String
  symbol : String
  decimals : Nat
  totalSupply : Nat
  maxSupply : Nat
  creator : Addr
  registeredAt : Nat
  description : String
  website : String
  logo : String
  verified : Bool
  active : Bool
  category : Nat
  tags : List String
  deriving DecidableEq, Repr

/-- The all-zero TokenMetadata an unwritten mapping slot reads as. -/
def TokenMetadata.zero : TokenMetadata :=
  { tokenAddress := 0
    name := ""
    symbol := ""
    decimals := 0
    totalSupply := 0
    maxSupply := 0
    creator := 0
    registeredAt := 0
    description := ""
    website := ""
    logo := ""
    verified := false
    active := false
    category := 0
    tags := [] }

/-- CreatorInfo struct of TokenRegistry.sol. -/
structure CreatorInfo where
  creator : Addr
  totalTokens : Nat
  verifiedTokens : Nat
  totalVolume : Nat
  lastActivity : Nat
  verified : Bool
  name : String
  description : String
  deriving DecidableEq, Repr

/-- The all-zero CreatorInfo an unwritten mapping slot reads as. -/
def CreatorInfo.zero : CreatorInfo :=
  { creator := 0
    totalTokens := 0
    verifiedTokens := 0
    totalVolume := 0
    lastActivity := 0
    verified := false
    name := ""
    description := "" }

/-- CategoryInfo struct of TokenRegistry.sol. -/
structure CategoryInfo where
  name : String
  description : String
  tokenCount : Nat
  active : Bool
  deriving DecidableEq, Repr

/-- The all-zero CategoryInfo an unwritten mapping slot reads as. -/
def CategoryInfo.zero : CategoryInfo :=
  { name := ""
    description := ""
    tokenCount := 0
    active := false }

/-- Custom errors of TokenRegistry.sol, the Ownable base errors, and the
Solidity 0.8 checked-arithmetic panic (0x11). -/
inductive Err
  | RegistryPaused
  | InvalidTokenAddress
  | TokenAlreadyRegistered
  | TokenNotRegistered
  | InvalidCreatorAddress
  | InvalidCategoryId
  | InsufficientRegistrationFee
  | EmptyName
  | EmptySymbol
  | EmptyDescription
  | OnlyCreator
  | OnlyVerifiedCreator
  | IndexOutOfBounds
  | TokenNotVerified
  | OwnableUnauthorizedAccount
  | OwnableInvalidOwner
  | ArithmeticUnderflow
  | EthTransferFailed
  deriving DecidableEq, Repr

/-- What the external calls `name()`, `symbol()`, `decimals()`,
`totalSupply()` and `maxSupply()` on a candidate token address answer.
`none` models a call that failed or returned no data. -/
structure TokenView where
  nameResult : Option String
  symbolResult : Option String
  decimalsResult : Option Nat
  totalSupplyResult : Option Nat
  maxSupplyResult : Option Nat
  deriving DecidableEq, Repr

/-- A TokenView for an address that answers none of the calls. -/
def TokenView.silent : TokenView :=
  { nameResult := none
    symbolResult := none
    decimalsResult := none
    totalSupplyResult := none
    maxSupplyResult := none }

/-- The world of token contracts the registry may probe. -/
abbrev TokenEnv := Addr → TokenView

/-- Storage of the TokenRegistry contract. -/
structure RegistryState where
  owner : Addr
  tokenMetadata : Addr → TokenMetadata
  creatorInfo : Addr → CreatorInfo
  categories : Nat → CategoryInfo
  allTokens : List Addr
  allCreators : List Addr
  totalTokensRegistered : Nat
  totalCreators : Nat
  totalCategories : Nat
  registrationFee : Nat
  registryPaused : Bool
  tokenFactory : Addr
  minTokensForVerification : Nat
  minVolumeForVerification : Nat
  balance : Nat

/-- Internal `_createCategory`. -/
def _createCategory (s : RegistryState) (name description : String) : RegistryState :=
  let categoryId := s.totalCategories
  { s with
    categories := fun i =>
      if i = categoryId then
        { name := name, description := description, tokenCount := 0, active := true }
      else s.categories i
    totalCategories := s.totalCategories + 1 }

/-- The TokenRegistry constructor: Ownable zero-owner check first, then the
body's factory check, field writes and the five default categories. -/
def deployRegistry (initialOwner initialRegistrationFee initialTokenFactory
    initialMinTokensForVerification initialMinVolumeForVerification : Nat) :
    Except Err RegistryState :=
  require (initialOwner = 0) .OwnableInvalidOwner <|
  require (initialTokenFactory = 0) .InvalidTokenAddress <|
    let s0 : RegistryState :=
      { owner := initialOwner
        tokenMetadata := fun _ => TokenMetadata.zero
        creatorInfo := fun _ => CreatorInfo.zero
        categories := fun _ => CategoryInfo.zero
        allTokens := []
        allCreators := []
        totalTokensRegistered := 0
        totalCreators := 0
        totalCategories := 0
        registrationFee := initialRegistrationFee
        registryPaused := false
        tokenFactory := initialTokenFactory
        minTokensForVerification := initialMinTokensForVerification
        minVolumeForVerification := initialMinVolumeForVerification
        balance := 0 }
    let s1 := _createCategory s0 ("DeFi") ("Decentralized Finance tokens")
    let s2 := _createCategory s1 ("Gaming") ("Gaming and NFT tokens")
    let s3 := _createCategory s2 ("Infrastructure") ("Infrastructure and utility tokens")
    let s4 := _createCategory s3 ("Social") ("Social and community tokens")
    let s5 := _createCategory s4 ("Other") ("Other miscellaneous tokens")
    .ok s5

/-- Internal `_registerToken`: the guard chain, the external probes of the
token, the metadata write, the allTokens append and the creator-info update,
all in source order. -/
def _registerToken (env : TokenEnv) (s : RegistryState) (msgValue timestamp : Nat)
    (tokenAddress : Addr) (description website logo : String) (category : Nat)
    (tags : List String) (creator : Addr) : Except Err RegistryState :=
  require (s.registryPaused = true) .RegistryPaused <|
  require (tokenAddress = 0) .InvalidTokenAddress <|
  require ((s.tokenMetadata tokenAddress).active = true) .TokenAlreadyRegistered <|
  require (s.totalCategories ≤ category) .InvalidCategoryId <|
  require (msgValue < s.registrationFee) .InsufficientRegistrationFee <|
  requireSome (env tokenAddress).nameResult .InvalidTokenAddress fun name =>
  requireSome (env tokenAddress).symbolResult .InvalidTokenAddress fun symbol =>
  require (name.length = 0) .EmptyName <|
  require (symbol.length = 0) .EmptySymbol <|
          let decimals := (env tokenAddress).decimalsResult.getD 18
          let totalSupply := (env tokenAddress).totalSupplyResult.getD 0
          let maxSupply := (env tokenAddress).maxSupplyResult.getD 0
          let metadata : TokenMetadata :=
            { tokenAddress := tokenAddress
              name := name
              symbol := symbol
              decimals := decimals
              totalSupply := totalSupply
              maxSupply := maxSupply
              creator := creator
              registeredAt := timestamp
              description := description
              website := website
              logo := logo
              verified := false
              active := true
              category := category
              tags := tags }
          let s1 :=
            { s with
              tokenMetadata := fun a =>
                if a = tokenAddress then metadata else s.tokenMetadata a
              allTokens := s.allTokens ++ [tokenAddress]
              totalTokensRegistered := s.totalTokensRegistered + 1
              balance := s.balance + msgValue }
          if (s1.creatorInfo creator).creator = 0 then
            .ok
              { s1 with
                creatorInfo := fun a =>
                  if a = creator then
                    { creator := creator
                      totalTokens := 1
                      verifiedTokens := 0
                      totalVolume := 0
                      lastActivity := timestamp
                      verified := false
                      name := ""
                      description := "" }
                  else s1.creatorInfo a
                allCreators := s1.allCreators ++ [creator]
                totalCreators := s1.totalCreators + 1 }
          else
            .ok
              { s1 with
                creatorInfo := fun a =>
                  if a = creator then
                    { s1.creatorInfo a with
                      totalTokens := (s1.creatorInfo a).totalTokens + 1
                      lastActivity := timestamp }
                  else s1.creatorInfo a }

/-- Solidity `registerToken`: the caller registers as the creator. -/
def registerToken (env : TokenEnv) (s : RegistryState) (caller msgValue timestamp : Nat)
    (tokenAddress : Addr) (description website logo : String) (category : Nat)
    (tags : List String) : Except Err RegistryState :=
  _registerToken env s msgValue timestamp tokenAddress description website logo
    category tags caller

/-- Solidity `registerTokenForCreator`: any caller registers on behalf of a creator. -/
def registerTokenForCreator (env : TokenEnv) (s : RegistryState)
    (msgValue timestamp : Nat) (tokenAddress : Addr)
    (description website logo : String) (category : Nat) (tags : List String)
    (creator : Addr) : Except Err RegistryState :=
  _registerToken env s msgValue timestamp tokenAddress description website logo
    category tags creator

/-- Solidity `updateTokenMetadata`: creator-only update of the three descriptive
fields. -/
def updateTokenMetadata (s : RegistryState) (caller tokenAddress : Addr)
    (description website logo : String) : Except Err RegistryState :=
  require ((s.tokenMetadata tokenAddress).creator ≠ caller) .OnlyCreator <|
  require ((s.tokenMetadata tokenAddress).active = false) .TokenNotRegistered <|
  .ok
    { s with
      tokenMetadata := fun a =>
        if a = tokenAddress then
          { s.tokenMetadata a with
            description := description
            website := website
            logo := logo }
        else s.tokenMetadata a }

/-- Solidity `registerCreator`: self-registration or refresh of the caller's
creator record. -/
def registerCreator (s : RegistryState) (caller timestamp : Nat)
    (name description : String) : Except Err RegistryState :=
  require (name.length = 0) .EmptyName <|
  require (description.length = 0) .EmptyDescription <|
    let isNewCreator := (s.creatorInfo caller).creator = 0
    let s1 :=
      { s with
        creatorInfo := fun a =>
          if a = caller then
            { creator := caller
              totalTokens := if isNewCreator then 0 else (s.creatorInfo caller).totalTokens
              verifiedTokens :=
                if isNewCreator then 0 else (s.creatorInfo caller).verifiedTokens
              totalVolume := if isNewCreator then 0 else (s.creatorInfo caller).totalVolume
              lastActivity := timestamp
              verified := if isNewCreator then false else (s.creatorInfo caller).verified
              name := name
              description := description }
          else s.creatorInfo a }
    if isNewCreator then
      .ok
        { s1 with
          allCreators := s1.allCreators ++ [caller]
          totalCreators := s1.totalCreators + 1 }
    else .ok s1

/-- Solidity `updateCreatorInfo`: refresh of an existing creator record. -/
def updateCreatorInfo (s : RegistryState) (caller timestamp : Nat)
    (name description : String) : Except Err RegistryState :=
  require ((s.creatorInfo caller).creator = 0) .InvalidCreatorAddress <|
  require (name.length = 0) .EmptyName <|
  require (description.length = 0) .EmptyDescription <|
  .ok
    { s with
      creatorInfo := fun a =>
        if a = caller then
          { s.creatorInfo a with
            name := name
            description := description
            lastActivity := timestamp }
        else s.creatorInfo a }

/-- Solidity `setRegistrationFee` (onlyOwner). -/
def setRegistrationFee (s : RegistryState) (caller newFee : Nat) :
    Except Err RegistryState :=
  require (caller ≠ s.owner) .OwnableUnauthorizedAccount <|
  .ok { s with registrationFee := newFee }

/-- Solidity `setRegistryPaused` (onlyOwner). -/
def setRegistryPaused (s : RegistryState) (caller : Nat) (paused : Bool) :
    Except Err RegistryState :=
  require (caller ≠ s.owner) .OwnableUnauthorizedAccount <|
  .ok { s with registryPaused := paused }

/-- Solidity `setVerificationRequirements` (onlyOwner). -/
def setVerificationRequirements (s : RegistryState) (caller minTokens minVolume : Nat) :
    Except Err RegistryState :=
  require (caller ≠ s.owner) .OwnableUnauthorizedAccount <|
  .ok
    { s with
      minTokensForVerification := minTokens
      minVolumeForVerification := minVolume }

/-- Solidity `setTokenVerification` (onlyOwner): writes the flag unconditionally, then
increments or decrements the creator's verifiedTokens counter without
consulting the previous flag.  The decrement is Solidity 0.8 checked
arithmetic: at zero it panics, reverting the whole call. -/
def setTokenVerification (s : RegistryState) (caller : Nat) (tokenAddress : Addr)
    (verified : Bool) : Except Err RegistryState :=
  require (caller ≠ s.owner) .OwnableUnauthorizedAccount <|
  require ((s.tokenMetadata tokenAddress).active = false) .TokenNotRegistered <|
    let c := (s.tokenMetadata tokenAddress).creator
    let s1 :=
      { s with
        tokenMetadata := fun a =>
          if a = tokenAddress then { s.tokenMetadata a with verified := verified }
          else s.tokenMetadata a }
    if verified then
      .ok
        { s1 with
          creatorInfo := fun a =>
            if a = c then
              { s1.creatorInfo a with
                verifiedTokens := (s1.creatorInfo a).verifiedTokens + 1 }
            else s1.creatorInfo a }
    else
      require ((s1.creatorInfo c).verifiedTokens = 0) .ArithmeticUnderflow <|
      .ok
          { s1 with
            creatorInfo := fun a =>
              if a = c then
                { s1.creatorInfo a with
                  verifiedTokens := (s1.creatorInfo a).verifiedTokens - 1 }
              else s1.creatorInfo a }

/-- Solidity `setCreatorVerification` (onlyOwner). -/
def setCreatorVerification (s : RegistryState) (caller : Nat) (creator : Addr)
    (verified : Bool) : Except Err RegistryState :=
  require (caller ≠ s.owner) .OwnableUnauthorizedAccount <|
  require ((s.creatorInfo creator).creator = 0) .InvalidCreatorAddress <|
  .ok
    { s with
      creatorInfo := fun a =>
        if a = creator then { s.creatorInfo a with verified := verified }
        else s.creatorInfo a }

/-- Solidity `createCategory` (onlyOwner). -/
def createCategory (s : RegistryState) (caller : Nat) (name description : String) :
    Except Err RegistryState :=
  require (caller ≠ s.owner) .OwnableUnauthorizedAccount <|
  .ok (_createCategory s name description)

/-- Solidity `updateCategory` (onlyOwner). -/
def updateCategory (s : RegistryState) (caller categoryId : Nat)
    (name description : String) (active : Bool) : Except Err RegistryState :=
  require (caller ≠ s.owner) .OwnableUnauthorizedAccount <|
  require (s.totalCategories ≤ categoryId) .InvalidCategoryId <|
  .ok
    { s with
      categories := fun i =>
        if i = categoryId then
          { s.categories i with name := name, description := description, active := active }
        else s.categories i }

/-- Solidity `withdrawFees` (onlyOwner). -/
def withdrawFees (s : RegistryState) (caller amount to_ : Nat) :
    Except Err RegistryState :=
  require (caller ≠ s.owner) .OwnableUnauthorizedAccount <|
  require (to_ = 0) .InvalidCreatorAddress <|
  require (s.balance < amount) .InsufficientRegistrationFee <|
  .ok { s with balance := s.balance - amount }

/-- Ownable `transferOwnership`. -/
def transferOwnership (s : RegistryState) (caller newOwner : Addr) :
    Except Err RegistryState :=
  require (caller ≠ s.owner) .OwnableUnauthorizedAccount <|
  require (newOwner = 0) .OwnableInvalidOwner <|
  .ok { s with owner := newOwner }

/-- Ownable `renounceOwnership`. -/
def renounceOwnership (s : RegistryState) (caller : Addr) : Except Err RegistryState :=
  require (caller ≠ s.owner) .OwnableUnauthorizedAccount <|
  .ok { s with owner := 0 }

/-- Solidity `getVerifiedTokens`: one pass over allTokens collecting, in order, the
addresses whose stored verified flag is set (the source's temp-array write at
position `count` is the append). -/
def getVerifiedTokens (s : RegistryState) : List Addr :=
  s.allTokens.foldl
    (fun temp a => if (s.tokenMetadata a).verified then temp ++ [a] else temp) []

/-- Solidity `getTokensByCreator`: same scan, filtering on the stored creator. -/
def getTokensByCreator (s : RegistryState) (creator : Addr) : List Addr :=
  s.allTokens.foldl
    (fun temp a => if (s.tokenMetadata a).creator = creator then temp ++ [a] else temp) []

/-- Solidity `getTokensByCategory`: category-id guard, then the same scan on the
stored category. -/
def getTokensByCategory (s : RegistryState) (categoryId : Nat) :
    Except Err (List Addr) :=
  if s.totalCategories ≤ categoryId then .error .InvalidCategoryId
  else .ok
    (s.allTokens.foldl
      (fun temp a => if (s.tokenMetadata a).category = categoryId then temp ++ [a] else temp)
      [])

/-- The state-changing entry points of the registry. -/
inductive Op
  | registerToken (caller msgValue timestamp : Nat) (tokenAddress : Addr)
      (description website logo : String) (category : Nat) (tags : List String)
  | registerTokenForCreator (caller msgValue timestamp : Nat) (tokenAddress : Addr)
      (description website logo : String) (category : Nat) (tags : List String)
      (creator : Addr)
  | updateTokenMetadata (caller : Nat) (tokenAddress : Addr)
      (description website logo : String)
  | registerCreator (caller timestamp : Nat) (name description : String)
  | updateCreatorInfo (caller timestamp : Nat) (name description : String)
  | setRegistrationFee (caller newFee : Nat)
  | setRegistryPaused (caller : Nat) (paused : Bool)
  | setVerificationRequirements (caller minTokens minVolume : Nat)
  | setTokenVerification (caller : Nat) (tokenAddress : Addr) (verified : Bool)
  | setCreatorVerification (caller : Nat) (creator : Addr) (verified : Bool)
  | createCategory (caller : Nat) (name description : String)
  | updateCategory (caller categoryId : Nat) (name description : String) (active : Bool)
  | withdrawFees (caller amount to_ : Nat)
  | transferOwnership (caller newOwner : Addr)
  | renounceOwnership (caller : Addr)
  | receiveEth (value : Nat)

/-- The transaction sender of an operation (`receiveEth` records none; it
touches no record). -/
def Op.caller : Op → Addr
  | .registerToken c .. => c
  | .registerTokenForCreator c .. => c
  | .updateTokenMetadata c .. => c
  | .registerCreator c .. => c
  | .updateCreatorInfo c .. => c
  | .setRegistrationFee c .. => c
  | .setRegistryPaused c .. => c
  | .setVerificationRequirements c .. => c
  | .setTokenVerification c .. => c
  | .setCreatorVerification c .. => c
  | .createCategory c .. => c
  | .updateCategory c .. => c
  | .withdrawFees c .. => c
  | .transferOwnership c .. => c
  | .renounceOwnership c => c
  | .receiveEth _ => 0

/-- One transaction against the registry, in a world of tokens `env`. -/
def rstep (env : TokenEnv) (s : RegistryState) : Op → Except Err RegistryState
  | .registerToken caller value ts t d w l cat tags =>
      registerToken env s caller value ts t d w l cat tags
  | .registerTokenForCreator _caller value ts t d w l cat tags creator =>
      registerTokenForCreator env s value ts t d w l cat tags creator
  | .updateTokenMetadata caller t d w l => updateTokenMetadata s caller t d w l
  | .registerCreator caller ts n d => registerCreator s caller ts n d
  | .updateCreatorInfo caller ts n d => updateCreatorInfo s caller ts n d
  | .setRegistrationFee caller newFee => setRegistrationFee s caller newFee
  | .setRegistryPaused caller paused => setRegistryPaused s caller paused
  | .setVerificationRequirements caller mt mv =>
      setVerificationRequirements s caller mt mv
  | .setTokenVerification caller t v => setTokenVerification s caller t v
  | .setCreatorVerification caller c v => setCreatorVerification s caller c v
  | .createCategory caller n d => createCategory s caller n d
  | .updateCategory caller cid n d a => updateCategory s caller cid n d a
  | .withdrawFees caller amount to_ => withdrawFees s caller amount to_
  | .transferOwnership caller newOwner => transferOwnership s caller newOwner
  | .renounceOwnership caller => renounceOwnership s caller
  | .receiveEth value => .ok { s with balance := s.balance + value }

/-- States the registry can actually be in, in a world of tokens `env`. -/
inductive RReachable (env : TokenEnv) : RegistryState → Prop
  | deployed (o fee f mt mv : Nat) (s : RegistryState) :
      deployRegistry o fee f mt mv = .ok s → RReachable env s
  | step (s : RegistryState) (op : Op) (s' : RegistryState) :
      RReachable env s → rstep env s op = .ok s' → RReachable env s'

end TokenRegistry
/-! ## Helper lemmas: URBEToken -/

/-- A successful constructor run starts at the initial supply, under the cap. -/
theorem URBEToken.deploy_ok_inv (n sym : String) (i m : Nat) (o : Addr)
    (me be pe : Bool) (s : URBEToken.TokenState)
    (h : URBEToken.deploy n sym i m o me be pe = .ok s) :
    s.totalSupply = i ∧ s.maxSupply = m ∧ i ≤ m := by
  simp only [URBEToken.deploy] at h
  repeat' split at h
  all_goals try exact Except.noConfusion h
  injection h with h
  subst h
  exact ⟨rfl, rfl, by omega⟩

/-- A successful `transfer` changes neither totalSupply nor maxSupply. -/
theorem URBEToken.transfer_ok_supply (s : URBEToken.TokenState) (c t v : Nat)
    (s' : URBEToken.TokenState) (h : URBEToken.transfer s c t v = .ok s') :
    s'.totalSupply = s.totalSupply ∧ s'.maxSupply = s.maxSupply := by
  simp only [URBEToken.transfer] at h
  repeat' split at h
  all_goals try exact Except.noConfusion h
  injection h with h
  subst h
  exact ⟨rfl, rfl⟩

/-- Every successful transaction preserves `totalSupply ≤ maxSupply`. -/
theorem URBEToken.tstep_supply_le (s : URBEToken.TokenState) (op : URBEToken.Op)
    (s' : URBEToken.TokenState) (h : URBEToken.tstep s op = .ok s')
    (hinv : s.totalSupply ≤ s.maxSupply) : s'.totalSupply ≤ s'.maxSupply := by
  cases op with
  | mint caller to_ amount =>
    simp only [URBEToken.tstep, URBEToken.mint, URBEToken._mintTokens] at h
    repeat' split at h
    all_goals try exact Except.noConfusion h
    injection h with h
    subst h
    show s.totalSupply + amount ≤ s.maxSupply
    omega
  | mintByMinter caller to_ amount =>
    simp only [URBEToken.tstep, URBEToken.mintByMinter, URBEToken._mintTokens] at h
    repeat' split at h
    all_goals try exact Except.noConfusion h
    injection h with h
    subst h
    show s.totalSupply + amount ≤ s.maxSupply
    omega
  | burn caller amount =>
    simp only [URBEToken.tstep, URBEToken.burn, URBEToken._burnTokens] at h
    repeat' split at h
    all_goals try exact Except.noConfusion h
    injection h with h
    subst h
    show s.totalSupply - amount ≤ s.maxSupply
    omega
  | burnFrom caller from_ amount =>
    simp only [URBEToken.tstep, URBEToken.burnFrom, URBEToken._burnTokensFrom] at h
    repeat' split at h
    all_goals try exact Except.noConfusion h
    injection h with h
    subst h
    show s.totalSupply - amount ≤ s.maxSupply
    omega
  | pause caller =>
    simp only [URBEToken.tstep, URBEToken.pause] at h
    repeat' split at h
    all_goals try exact Except.noConfusion h
    injection h with h
    subst h
    exact hinv
  | unpause caller =>
    simp only [URBEToken.tstep, URBEToken.unpause] at h
    repeat' split at h
    all_goals try exact Except.noConfusion h
    injection h with h
    subst h
    exact hinv
  | toggleMinting caller enabled =>
    simp only [URBEToken.tstep, URBEToken.toggleMinting] at h
    repeat' split at h
    all_goals try exact Except.noConfusion h
    injection h with h
    subst h
    exact hinv
  | toggleBurning caller enabled =>
    simp only [URBEToken.tstep, URBEToken.toggleBurning] at h
    repeat' split at h
    all_goals try exact Except.noConfusion h
    injection h with h
    subst h
    exact hinv
  | togglePausing caller enabled =>
    simp only [URBEToken.tstep, URBEToken.togglePausing] at h
    repeat' split at h
    all_goals try exact Except.noConfusion h
    injection h with h
    subst h
    exact hinv
  | setRole caller r a grant =>
    simp only [URBEToken.tstep, URBEToken.setRole] at h
    repeat' split at h
    all_goals try exact Except.noConfusion h
    injection h with h
    subst h
    exact hinv
  | transfer caller to_ value =>
    have hp := URBEToken.transfer_ok_supply s caller to_ value s'
      (by simpa only [URBEToken.tstep] using h)
    omega
  | approve caller spender value =>
    simp only [URBEToken.tstep, URBEToken.approve] at h
    repeat' split at h
    all_goals try exact Except.noConfusion h
    injection h with h
    subst h
    exact hinv
  | transferFrom caller from_ to_ value =>
    simp only [URBEToken.tstep, URBEToken.transferFrom] at h
    repeat' split at h
    all_goals try exact Except.noConfusion h
    · obtain ⟨h1, h2⟩ := URBEToken.transfer_ok_supply s from_ to_ value s' h
      omega
    · rename_i s'' heq
      injection h with h
      subst h
      obtain ⟨h1, h2⟩ := URBEToken.transfer_ok_supply s from_ to_ value s'' heq
      show s''.totalSupply ≤ s''.maxSupply
      omega
  | transferOwnership caller newOwner =>
    simp only [URBEToken.tstep, URBEToken.transferOwnership] at h
    repeat' split at h
    all_goals try exact Except.noConfusion h
    injection h with h
    subst h
    exact hinv
  | renounceOwnership caller =>
    simp only [URBEToken.tstep, URBEToken.renounceOwnership] at h
    repeat' split at h
    all_goals try exact Except.noConfusion h
    injection h with h
    subst h
    exact hinv

/-- The supply invariant holds in every reachable URBEToken state. -/
theorem URBEToken.reachable_supply_le (s : URBEToken.TokenState)
    (h : URBEToken.Reachable s) : s.totalSupply ≤ s.maxSupply := by
  induction h with
  | deployed n sym i m o me be pe s hd =>
    obtain ⟨h1, h2, h3⟩ := URBEToken.deploy_ok_inv n sym i m o me be pe s hd
    omega
  | step s op s' hs hstep ih => exact URBEToken.tstep_supply_le s op s' hstep ih

/-- A concrete URBEToken state: the result of a successful constructor run
with initial supply 5, max supply 10, owner 1, all features enabled. -/
def URBEToken.tok0 : URBEToken.TokenState :=
  { name := "Urbe"
    symbol := "URB"
    owner := 1
    totalSupply := 5
    maxSupply := 10
    mintingEnabled := true
    burningEnabled := true
    pausingEnabled := true
    paused := false
    balances := fun a => if a = 1 then 5 else 0
    allowances := fun _ _ => 0
    roles := fun _ a => decide (a = 1) }

/-- C1: every reachable state of a URBEToken satisfies
`totalSupply ≤ maxSupply`.  The constructor never accepts
`initialSupply > maxSupply_` (and rejects it with MaxSupplyExceeded once the
zero-owner and zero-max guards pass), and an over-cap `mint` or
`mintByMinter` never succeeds (and reverts with MaxSupplyExceeded once its
earlier guards pass).  An error result is a revert, which leaves no state
change. -/
theorem C1_total_supply_invariant :
    (∀ s : URBEToken.TokenState, URBEToken.Reachable s →
      s.totalSupply ≤ s.maxSupply) ∧
    (∀ (n sym : String) (i m : Nat) (o : Addr) (me be pe : Bool)
        (s : URBEToken.TokenState), m < i →
      URBEToken.deploy n sym i m o me be pe ≠ .ok s) ∧
    (∀ (n sym : String) (i m : Nat) (o : Addr) (me be pe : Bool),
      o ≠ 0 → m ≠ 0 → m < i →
      URBEToken.deploy n sym i m o me be pe = .error .MaxSupplyExceeded) ∧
    (∀ (s : URBEToken.TokenState) (caller to_ amount : Nat)
        (s' : URBEToken.TokenState), s.maxSupply < s.totalSupply + amount →
      URBEToken.mint s caller to_ amount ≠ .ok s' ∧
      URBEToken.mintByMinter s caller to_ amount ≠ .ok s') ∧
    (∀ (s : URBEToken.TokenState) (caller to_ amount : Nat),
      s.mintingEnabled = true → s.paused = false → to_ ≠ 0 → amount ≠ 0 →
      s.maxSupply < s.totalSupply + amount →
      (caller = s.owner →
        URBEToken.mint s caller to_ amount = .error .MaxSupplyExceeded) ∧
      (s.roles .minter caller = true →
        URBEToken.mintByMinter s caller to_ amount = .error .MaxSupplyExceeded)) := by
  refine ⟨URBEToken.reachable_supply_le, ?_, ?_, ?_, ?_⟩
  · intro n sym i m o me be pe s hmi hok
    obtain ⟨h1, h2, h3⟩ := URBEToken.deploy_ok_inv n sym i m o me be pe s hok
    omega
  · intro n sym i m o me be pe ho hm hmi
    simp [URBEToken.deploy, ho, hm, hmi]
  · intro s caller to_ amount s' hover
    constructor
    · intro hok
      simp only [URBEToken.mint, URBEToken._mintTokens] at hok
      repeat' split at hok
      all_goals exact Except.noConfusion hok
    · intro hok
      simp only [URBEToken.mintByMinter, URBEToken._mintTokens] at hok
      repeat' split at hok
      all_goals exact Except.noConfusion hok
  · intro s caller to_ amount hme hpaused hto hamount hover
    constructor
    · intro hcaller
      simp [URBEToken.mint, URBEToken._mintTokens, hcaller, hpaused, hme,
        hto, hamount, hover]
    · intro hrole
      simp [URBEToken.mintByMinter, URBEToken._mintTokens, hrole, hpaused,
        hme, hto, hamount, hover]

/-- Witness for C1 at a concrete deployment (initial 5, max 10) and a
concrete over-cap mint of 6. -/
theorem C1_total_supply_invariant_witness :
    URBEToken.tok0.totalSupply ≤ URBEToken.tok0.maxSupply ∧
    URBEToken.deploy ("Urbe") ("URB") 11 10 1 true true true ≠
      .ok URBEToken.tok0 ∧
    URBEToken.deploy ("Urbe") ("URB") 11 10 1 true true true =
      .error .MaxSupplyExceeded ∧
    URBEToken.mint URBEToken.tok0 1 2 6 ≠ .ok URBEToken.tok0 ∧
    URBEToken.mint URBEToken.tok0 1 2 6 = .error .MaxSupplyExceeded ∧
    URBEToken.mintByMinter URBEToken.tok0 1 2 6 = .error .MaxSupplyExceeded :=
  ⟨C1_total_supply_invariant.1 URBEToken.tok0
      (URBEToken.Reachable.deployed ("Urbe") ("URB") 5 10 1 true true true
        URBEToken.tok0 rfl),
   C1_total_supply_invariant.2.1 ("Urbe") ("URB") 11 10 1 true true true
      URBEToken.tok0 (by decide),
   C1_total_supply_invariant.2.2.1 ("Urbe") ("URB") 11 10 1 true true true
      (by decide) (by decide) (by decide),
   (C1_total_supply_invariant.2.2.2.1 URBEToken.tok0 1 2 6 URBEToken.tok0
      (by decide)).1,
   (C1_total_supply_invariant.2.2.2.2 URBEToken.tok0 1 2 6 rfl rfl
      (by decide) (by decide) (by decide)).1 rfl,
   (C1_total_supply_invariant.2.2.2.2 URBEToken.tok0 1 2 6 rfl rfl
      (by decide) (by decide) (by decide)).2 rfl⟩

/-! ## Helper lemmas: TokenFactory -/

/-- Freshness invariant: addresses the CREATE counter has not yet handed out
carry no token record. -/
def TokenFactory.FInv (s : TokenFactory.FactoryState) : Prop :=
  ∀ a, s.nextTokenAddr ≤ a → s.tokenInfo a = none

/-- The constructor establishes the freshness invariant. -/
theorem TokenFactory.deployFactory_inv (o fee mx : Nat)
    (s : TokenFactory.FactoryState) (h : TokenFactory.deployFactory o fee mx = .ok s) :
    TokenFactory.FInv s := by
  simp only [TokenFactory.deployFactory] at h
  repeat' split at h
  all_goals try exact Except.noConfusion h
  injection h with h
  subst h
  intro a _
  rfl

/-- Shape of a successful `_deployToken`: the record is written at the fresh
address only, one address is appended to allTokens, the counter and the
CREATE counter advance by one. -/
theorem TokenFactory._deployToken_ok_shape (s : TokenFactory.FactoryState)
    (cs cv : Nat) (nm sy : String) (i m : Nat) (own : Addr) (me be pe : Bool)
    (ts : Nat) (r : TokenFactory.FactoryState × Addr)
    (h : TokenFactory._deployToken s cs cv nm sy i m own me be pe ts = .ok r) :
    (∀ a, a ≠ s.nextTokenAddr → r.1.tokenInfo a = s.tokenInfo a) ∧
    r.1.nextTokenAddr = s.nextTokenAddr + 1 ∧
    r.1.allTokens = s.allTokens ++ [s.nextTokenAddr] ∧
    r.1.totalTokensDeployed = s.totalTokensDeployed + 1 := by
  simp only [TokenFactory._deployToken, require_ok] at h
  obtain ⟨-, -, -, -, -, -, -, -, -, h⟩ := h
  injection h with h
  subst h
  refine ⟨?_, rfl, rfl, rfl⟩
  intro a hne
  simp [hne]

/-- Non-deployment factory operations change none of: the tokenInfo map, the
allTokens ledger, the deployment counter, the CREATE counter. -/
theorem TokenFactory.fstep_nondeploy_frame (s : TokenFactory.FactoryState)
    (op : TokenFactory.Op) (s' : TokenFactory.FactoryState)
    (hop : op.isDeploy = false) (h : TokenFactory.fstep s op = .ok s') :
    s'.tokenInfo = s.tokenInfo ∧ s'.allTokens = s.allTokens ∧
    s'.totalTokensDeployed = s.totalTokensDeployed ∧
    s'.nextTokenAddr = s.nextTokenAddr := by
  cases op <;> simp only [TokenFactory.Op.isDeploy] at hop
  all_goals try exact Bool.noConfusion hop
  all_goals
    simp only [TokenFactory.fstep, TokenFactory.setDeploymentFee,
      TokenFactory.setMaxTokensPerCreator, TokenFactory.setFactoryPaused,
      TokenFactory.withdrawFees, TokenFactory.transferOwnership,
      TokenFactory.renounceOwnership] at h
  all_goals repeat' split at h
  all_goals try exact Except.noConfusion h
  all_goals injection h with h
  all_goals subst h
  all_goals exact ⟨rfl, rfl, rfl, rfl⟩

/-- Every successful factory transaction preserves the freshness invariant. -/
theorem TokenFactory.fstep_inv (s : TokenFactory.FactoryState) (op : TokenFactory.Op)
    (s' : TokenFactory.FactoryState) (h : TokenFactory.fstep s op = .ok s')
    (hinv : TokenFactory.FInv s) : TokenFactory.FInv s' := by
  cases hd : op.isDeploy with
  | false =>
    obtain ⟨h1, h2, h3, h4⟩ := TokenFactory.fstep_nondeploy_frame s op s' hd h
    intro a ha
    rw [h1]
    exact hinv a (h4 ▸ ha)
  | true =>
    cases op <;> simp only [TokenFactory.Op.isDeploy] at hd
    all_goals try exact Bool.noConfusion hd
    · rename_i caller value nm sy i m me be pe ts
      simp only [TokenFactory.fstep, TokenFactory.deployToken, Except.map] at h
      repeat' split at h
      all_goals try exact Except.noConfusion h
      rename_i v heq
      injection h with h
      subst h
      obtain ⟨hti, hnext, _, _⟩ :=
        TokenFactory._deployToken_ok_shape s caller value nm sy i m caller
          me be pe ts v heq
      intro a ha
      rw [hnext] at ha
      have hne2 : a ≠ s.nextTokenAddr := (Nat.ne_of_lt (Nat.lt_of_succ_le ha)).symm
      rw [hti a hne2]
      exact hinv a (Nat.le_of_succ_le ha)
    · rename_i caller value nm sy i m own me be pe ts
      simp only [TokenFactory.fstep, TokenFactory.deployTokenWithOwner,
        Except.map] at h
      repeat' split at h
      all_goals try exact Except.noConfusion h
      rename_i v heq
      injection h with h
      subst h
      obtain ⟨hti, hnext, _, _⟩ :=
        TokenFactory._deployToken_ok_shape s caller value nm sy i m own
          me be pe ts v heq
      intro a ha
      rw [hnext] at ha
      have hne2 : a ≠ s.nextTokenAddr := (Nat.ne_of_lt (Nat.lt_of_succ_le ha)).symm
      rw [hti a hne2]
      exact hinv a (Nat.le_of_succ_le ha)

/-- A successful factory transaction never erases or rewrites an existing
token record. -/
theorem TokenFactory.fstep_preserves_tokenInfo (s : TokenFactory.FactoryState)
    (op : TokenFactory.Op) (s' : TokenFactory.FactoryState)
    (h : TokenFactory.fstep s op = .ok s') (hinv : TokenFactory.FInv s)
    (t : Addr) (info : TokenFactory.TokenInfo) (ht : s.tokenInfo t = some info) :
    s'.tokenInfo t = some info := by
  have hne : t ≠ s.nextTokenAddr := by
    intro he
    rw [he, hinv s.nextTokenAddr (Nat.le_refl _)] at ht
    exact Option.noConfusion ht
  cases hd : op.isDeploy with
  | false =>
    obtain ⟨h1, _, _, _⟩ := TokenFactory.fstep_nondeploy_frame s op s' hd h
    rw [h1]
    exact ht
  | true =>
    cases op <;> simp only [TokenFactory.Op.isDeploy] at hd
    all_goals try exact Bool.noConfusion hd
    · rename_i caller value nm sy i m me be pe ts
      simp only [TokenFactory.fstep, TokenFactory.deployToken, Except.map] at h
      repeat' split at h
      all_goals try exact Except.noConfusion h
      rename_i v heq
      injection h with h
      subst h
      obtain ⟨hti, _, _, _⟩ :=
        TokenFactory._deployToken_ok_shape s caller value nm sy i m caller
          me be pe ts v heq
      rw [hti t hne]
      exact ht
    · rename_i caller value nm sy i m own me be pe ts
      simp only [TokenFactory.fstep, TokenFactory.deployTokenWithOwner,
        Except.map] at h
      repeat' split at h
      all_goals try exact Except.noConfusion h
      rename_i v heq
      injection h with h
      subst h
      obtain ⟨hti, _, _, _⟩ :=
        TokenFactory._deployToken_ok_shape s caller value nm sy i m own
          me be pe ts v heq
      rw [hti t hne]
      exact ht

/-- The freshness invariant holds in every reachable factory state. -/
theorem TokenFactory.freachable_inv (s : TokenFactory.FactoryState)
    (h : TokenFactory.FReachable s) : TokenFactory.FInv s := by
  induction h with
  | deployed o fee mx s hd => exact TokenFactory.deployFactory_inv o fee mx s hd
  | step s op s' hs hstep ih => exact TokenFactory.fstep_inv s op s' hstep ih

/-- A concrete factory state: the result of the constructor with owner 1,
fee 100, cap 3. -/
def TokenFactory.fac0 : TokenFactory.FactoryState :=
  { owner := 1
    tokensByCreator := fun _ => []
    tokenInfo := fun _ => none
    allTokens := []
    totalTokensDeployed := 0
    maxTokensPerCreator := 3
    deploymentFee := 100
    factoryPaused := false
    balance := 0
    nextTokenAddr := 1 }

/-- The record the factory stores for the first deployment below. -/
def TokenFactory.info1 : TokenFactory.TokenInfo :=
  { tokenAddress := 1
    name := "Tok"
    symbol := "TK"
    initialSupply := 5
    maxSupply := 10
    creator := 2
    createdAt := 1000
    mintingEnabled := true
    burningEnabled := true
    pausingEnabled := true }

/-- The first deployment against `fac0`: creator 2 pays 100 at time 1000. -/
def TokenFactory.fop1 : TokenFactory.Op :=
  .deployToken 2 100 ("Tok") ("TK") 5 10 true true true 1000

/-- The factory state after `fop1`. -/
def TokenFactory.fac1 : TokenFactory.FactoryState :=
  { owner := 1
    tokensByCreator := fun a => if a = 2 then [1] else []
    tokenInfo := fun a => if a = 1 then some TokenFactory.info1 else none
    allTokens := [1]
    totalTokensDeployed := 1
    maxTokensPerCreator := 3
    deploymentFee := 100
    factoryPaused := false
    balance := 100
    nextTokenAddr := 2 }

/-- A later owner operation: the owner lowers the fee to 42. -/
def TokenFactory.fop2 : TokenFactory.Op := .setDeploymentFee 1 42

/-- The factory state after `fop2`. -/
def TokenFactory.fac2 : TokenFactory.FactoryState :=
  { TokenFactory.fac1 with deploymentFee := 42 }

/-- C3: a tokenInfo record, once written by a deployment, is never modified
by any later successful factory operation: every step preserves each
existing record exactly, and every non-deployment operation leaves the
whole tokenInfo map untouched.  (A reverting operation changes nothing by
definition of revert.) -/
theorem C3_tokenInfo_immutable :
    (∀ s : TokenFactory.FactoryState, TokenFactory.FReachable s →
      ∀ (op : TokenFactory.Op) (s' : TokenFactory.FactoryState),
        TokenFactory.fstep s op = .ok s' →
        ∀ (t : Addr) (info : TokenFactory.TokenInfo),
          s.tokenInfo t = some info → s'.tokenInfo t = some info) ∧
    (∀ (s : TokenFactory.FactoryState) (op : TokenFactory.Op)
        (s' : TokenFactory.FactoryState), op.isDeploy = false →
      TokenFactory.fstep s op = .ok s' → ∀ t, s'.tokenInfo t = s.tokenInfo t) := by
  constructor
  · intro s hs op s' h t info ht
    exact TokenFactory.fstep_preserves_tokenInfo s op s' h
      (TokenFactory.freachable_inv s hs) t info ht
  · intro s op s' hop h t
    exact congrFun (TokenFactory.fstep_nondeploy_frame s op s' hop h).1 t

/-- Witness for C3: after deploying token 1 and then changing the fee, the
record of token 1 is unchanged, and the fee change touched no record at
all. -/
theorem C3_tokenInfo_immutable_witness :
    TokenFactory.fac2.tokenInfo 1 = some TokenFactory.info1 ∧
    TokenFactory.fac2.tokenInfo 7 = TokenFactory.fac1.tokenInfo 7 :=
  ⟨C3_tokenInfo_immutable.1 TokenFactory.fac1
      (TokenFactory.FReachable.step TokenFactory.fac0 TokenFactory.fop1
        TokenFactory.fac1
        (TokenFactory.FReachable.deployed 1 100 3 TokenFactory.fac0 rfl) rfl)
      TokenFactory.fop2 TokenFactory.fac2 rfl 1 TokenFactory.info1 rfl,
   C3_tokenInfo_immutable.2 TokenFactory.fac1 TokenFactory.fop2
      TokenFactory.fac2 rfl rfl 7⟩

/-- A factory whose per-creator cap is 0 and fee is 0: every deployment hits
the cap check. -/
def TokenFactory.facz : TokenFactory.FactoryState :=
  { owner := 1
    tokensByCreator := fun _ => []
    tokenInfo := fun _ => none
    allTokens := []
    totalTokensDeployed := 0
    maxTokensPerCreator := 0
    deploymentFee := 0
    factoryPaused := false
    balance := 0
    nextTokenAddr := 1 }

/-- C6: a caller at or above the per-creator cap can never deploy through
either deployToken or deployTokenWithOwner — the call reverts (an error
result leaves the factory state unchanged), and reverts precisely with
MaxTokensPerCreatorExceeded once the eight earlier guards pass; a caller
strictly below the cap never trips this check, through either entry
point. -/
theorem C6_max_tokens_per_creator :
    (∀ (s : TokenFactory.FactoryState) (caller value : Nat) (nm sy : String)
        (i m : Nat) (me be pe : Bool) (ts : Nat)
        (st : TokenFactory.FactoryState) (a : Addr),
      s.maxTokensPerCreator ≤ (s.tokensByCreator caller).length →
      TokenFactory.deployToken s caller value nm sy i m me be pe ts ≠
        .ok (st, a)) ∧
    (∀ (s : TokenFactory.FactoryState) (caller value : Nat) (nm sy : String)
        (i m : Nat) (own : Addr) (me be pe : Bool) (ts : Nat)
        (st : TokenFactory.FactoryState) (a : Addr),
      s.maxTokensPerCreator ≤ (s.tokensByCreator caller).length →
      TokenFactory.deployTokenWithOwner s caller value nm sy i m own me be pe ts ≠
        .ok (st, a)) ∧
    (∀ (s : TokenFactory.FactoryState) (caller value : Nat) (nm sy : String)
        (i m : Nat) (me be pe : Bool) (ts : Nat),
      ¬s.factoryPaused = true → ¬nm.length = 0 → ¬sy.length = 0 →
      ¬i = 0 → ¬m = 0 → ¬m < i → ¬caller = 0 → ¬value < s.deploymentFee →
      s.maxTokensPerCreator ≤ (s.tokensByCreator caller).length →
      TokenFactory.deployToken s caller value nm sy i m me be pe ts =
        .error .MaxTokensPerCreatorExceeded) ∧
    (∀ (s : TokenFactory.FactoryState) (caller value : Nat) (nm sy : String)
        (i m : Nat) (own : Addr) (me be pe : Bool) (ts : Nat),
      ¬s.factoryPaused = true → ¬nm.length = 0 → ¬sy.length = 0 →
      ¬i = 0 → ¬m = 0 → ¬m < i → ¬own = 0 → ¬value < s.deploymentFee →
      s.maxTokensPerCreator ≤ (s.tokensByCreator caller).length →
      TokenFactory.deployTokenWithOwner s caller value nm sy i m own me be pe ts =
        .error .MaxTokensPerCreatorExceeded) ∧
    (∀ (s : TokenFactory.FactoryState) (caller value : Nat) (nm sy : String)
        (i m : Nat) (me be pe : Bool) (ts : Nat),
      (s.tokensByCreator caller).length < s.maxTokensPerCreator →
      TokenFactory.deployToken s caller value nm sy i m me be pe ts ≠
        .error .MaxTokensPerCreatorExceeded) ∧
    (∀ (s : TokenFactory.FactoryState) (caller value : Nat) (nm sy : String)
        (i m : Nat) (own : Addr) (me be pe : Bool) (ts : Nat),
      (s.tokensByCreator caller).length < s.maxTokensPerCreator →
      TokenFactory.deployTokenWithOwner s caller value nm sy i m own me be pe ts ≠
        .error .MaxTokensPerCreatorExceeded) := by
  refine ⟨?_, ?_, ?_, ?_, ?_, ?_⟩
  · intro s caller value nm sy i m me be pe ts st a hcap hok
    simp only [TokenFactory.deployToken, TokenFactory._deployToken,
      require_ok] at hok
    exact hok.2.2.2.2.2.2.2.2.1 hcap
  · intro s caller value nm sy i m own me be pe ts st a hcap hok
    simp only [TokenFactory.deployTokenWithOwner, TokenFactory._deployToken,
      require_ok] at hok
    exact hok.2.2.2.2.2.2.2.2.1 hcap
  · intro s caller value nm sy i m me be pe ts h1 h2 h3 h4 h5 h6 h7 h8 hcap
    simp [TokenFactory.deployToken, TokenFactory._deployToken, require,
      h1, h2, h3, h4, h5, h6, h7, h8, hcap]
  · intro s caller value nm sy i m own me be pe ts h1 h2 h3 h4 h5 h6 h7 h8 hcap
    simp [TokenFactory.deployTokenWithOwner, TokenFactory._deployToken, require,
      h1, h2, h3, h4, h5, h6, h7, h8, hcap]
  · intro s caller value nm sy i m me be pe ts hbelow herr
    simp only [TokenFactory.deployToken, TokenFactory._deployToken,
      require_error] at herr
    rcases herr with ⟨-, he⟩ | ⟨-, herr⟩
    · exact TokenFactory.Err.noConfusion he
    rcases herr with ⟨-, he⟩ | ⟨-, herr⟩
    · exact TokenFactory.Err.noConfusion he
    rcases herr with ⟨-, he⟩ | ⟨-, herr⟩
    · exact TokenFactory.Err.noConfusion he
    rcases herr with ⟨-, he⟩ | ⟨-, herr⟩
    · exact TokenFactory.Err.noConfusion he
    rcases herr with ⟨-, he⟩ | ⟨-, herr⟩
    · exact TokenFactory.Err.noConfusion he
    rcases herr with ⟨-, he⟩ | ⟨-, herr⟩
    · exact TokenFactory.Err.noConfusion he
    rcases herr with ⟨-, he⟩ | ⟨-, herr⟩
    · exact TokenFactory.Err.noConfusion he
    rcases herr with ⟨-, he⟩ | ⟨-, herr⟩
    · exact TokenFactory.Err.noConfusion he
    rcases herr with ⟨hcap, -⟩ | ⟨-, herr⟩
    · exact absurd hcap (Nat.not_le.mpr hbelow)
    · exact Except.noConfusion herr
  · intro s caller value nm sy i m own me be pe ts hbelow herr
    simp only [TokenFactory.deployTokenWithOwner, TokenFactory._deployToken,
      require_error] at herr
    rcases herr with ⟨-, he⟩ | ⟨-, herr⟩
    · exact TokenFactory.Err.noConfusion he
    rcases herr with ⟨-, he⟩ | ⟨-, herr⟩
    · exact TokenFactory.Err.noConfusion he
    rcases herr with ⟨-, he⟩ | ⟨-, herr⟩
    · exact TokenFactory.Err.noConfusion he
    rcases herr with ⟨-, he⟩ | ⟨-, herr⟩
    · exact TokenFactory.Err.noConfusion he
    rcases herr with ⟨-, he⟩ | ⟨-, herr⟩
    · exact TokenFactory.Err.noConfusion he
    rcases herr with ⟨-, he⟩ | ⟨-, herr⟩
    · exact TokenFactory.Err.noConfusion he
    rcases herr with ⟨-, he⟩ | ⟨-, herr⟩
    · exact TokenFactory.Err.noConfusion he
    rcases herr with ⟨-, he⟩ | ⟨-, herr⟩
    · exact TokenFactory.Err.noConfusion he
    rcases herr with ⟨hcap, -⟩ | ⟨-, herr⟩
    · exact absurd hcap (Nat.not_le.mpr hbelow)
    · exact Except.noConfusion herr

/-- Witness for C6: with the cap at 0, both deployToken and
deployTokenWithOwner revert with MaxTokensPerCreatorExceeded; with the cap
at 3 and no prior deployments, the same calls through both entry points do
not trip the cap check. -/
theorem C6_max_tokens_per_creator_witness :
    TokenFactory.deployToken TokenFactory.facz 2 0 ("Tok") ("TK") 5 10
      true true true 1000 = .error .MaxTokensPerCreatorExceeded ∧
    TokenFactory.deployTokenWithOwner TokenFactory.facz 2 0 ("Tok") ("TK") 5 10
      3 true true true 1000 = .error .MaxTokensPerCreatorExceeded ∧
    TokenFactory.deployToken TokenFactory.facz 2 0 ("Tok") ("TK") 5 10
      true true true 1000 ≠
      .ok (TokenFactory.fac1, 1) ∧
    TokenFactory.deployTokenWithOwner TokenFactory.facz 2 0 ("Tok") ("TK") 5 10
      3 true true true 1000 ≠
      .ok (TokenFactory.fac1, 1) ∧
    TokenFactory.deployToken TokenFactory.fac0 2 100 ("Tok") ("TK") 5 10
      true true true 1000 ≠ .error .MaxTokensPerCreatorExceeded ∧
    TokenFactory.deployTokenWithOwner TokenFactory.fac0 2 100 ("Tok") ("TK") 5 10
      3 true true true 1000 ≠ .error .MaxTokensPerCreatorExceeded :=
  ⟨C6_max_tokens_per_creator.2.2.1 TokenFactory.facz 2 0 ("Tok") ("TK") 5 10
      true true true 1000 (by decide) (by decide) (by decide) (by decide)
      (by decide) (by decide) (by decide) (by decide) (by decide),
   C6_max_tokens_per_creator.2.2.2.1 TokenFactory.facz 2 0 ("Tok") ("TK") 5 10
      3 true true true 1000 (by decide) (by decide) (by decide) (by decide)
      (by decide) (by decide) (by decide) (by decide) (by decide),
   C6_max_tokens_per_creator.1 TokenFactory.facz 2 0 ("Tok") ("TK") 5 10
      true true true 1000 TokenFactory.fac1 1 (by decide),
   C6_max_tokens_per_creator.2.1 TokenFactory.facz 2 0 ("Tok") ("TK") 5 10
      3 true true true 1000 TokenFactory.fac1 1 (by decide),
   C6_max_tokens_per_creator.2.2.2.2.1 TokenFactory.fac0 2 100 ("Tok") ("TK")
      5 10 true true true 1000 (by decide),
   C6_max_tokens_per_creator.2.2.2.2.2 TokenFactory.fac0 2 100 ("Tok") ("TK")
      5 10 3 true true true 1000 (by decide)⟩

/-! ## Helper lemmas: TokenRegistry -/

/-- The all-zero registry state (fallback arm of the extractions below). -/
def TokenRegistry.emptyRegistry : TokenRegistry.RegistryState :=
  { owner := 0
    tokenMetadata := fun _ => TokenRegistry.TokenMetadata.zero
    creatorInfo := fun _ => TokenRegistry.CreatorInfo.zero
    categories := fun _ => TokenRegistry.CategoryInfo.zero
    allTokens := []
    allCreators := []
    totalTokensRegistered := 0
    totalCreators := 0
    totalCategories := 0
    registrationFee := 0
    registryPaused := false
    tokenFactory := 0
    minTokensForVerification := 0
    minVolumeForVerification := 0
    balance := 0 }

/-- A concrete registry: owner 1, fee 10, factory address 7. -/
def TokenRegistry.reg0 : TokenRegistry.RegistryState :=
  match TokenRegistry.deployRegistry 1 10 7 0 0 with
  | .ok s => s
  | .error _ => TokenRegistry.emptyRegistry

/-- A world with two well-behaved token contracts at addresses 5 and 6. -/
def TokenRegistry.env0 : TokenRegistry.TokenEnv := fun a =>
  if a = 5 then
    { nameResult := some ("Tok")
      symbolResult := some ("TK")
      decimalsResult := some 18
      totalSupplyResult := some 1000
      maxSupplyResult := none }
  else if a = 6 then
    { nameResult := some ("Tok2")
      symbolResult := some ("TK2")
      decimalsResult := none
      totalSupplyResult := none
      maxSupplyResult := some 5000 }
  else TokenRegistry.TokenView.silent

/-- Caller 9 registers token 5 at time 1000, paying the 10-wei fee. -/
def TokenRegistry.rop1 : TokenRegistry.Op :=
  .registerToken 9 10 1000 5 ("d") ("w") ("l") 0 []

/-- The registry after `rop1`. -/
def TokenRegistry.reg1 : TokenRegistry.RegistryState :=
  match TokenRegistry.rstep TokenRegistry.env0 TokenRegistry.reg0
      TokenRegistry.rop1 with
  | .ok s => s
  | .error _ => TokenRegistry.emptyRegistry

/-- Operation `rop1` succeeds and yields `reg1`. -/
theorem TokenRegistry.reg1_def :
    TokenRegistry.rstep TokenRegistry.env0 TokenRegistry.reg0 TokenRegistry.rop1 =
      .ok TokenRegistry.reg1 := rfl

/-- The owner verifies token 5. -/
def TokenRegistry.rop2 : TokenRegistry.Op := .setTokenVerification 1 5 true

/-- The registry after `rop2`. -/
def TokenRegistry.reg2 : TokenRegistry.RegistryState :=
  match TokenRegistry.rstep TokenRegistry.env0 TokenRegistry.reg1
      TokenRegistry.rop2 with
  | .ok s => s
  | .error _ => TokenRegistry.emptyRegistry

/-- Operation `rop2` succeeds and yields `reg2`. -/
theorem TokenRegistry.reg2_def :
    TokenRegistry.rstep TokenRegistry.env0 TokenRegistry.reg1 TokenRegistry.rop2 =
      .ok TokenRegistry.reg2 := rfl

/-- Caller 9 registers a second token 6 at time 2000. -/
def TokenRegistry.rop3 : TokenRegistry.Op :=
  .registerToken 9 10 2000 6 ("d2") ("w2") ("l2") 1 []

/-- The registry after `rop3`. -/
def TokenRegistry.reg3 : TokenRegistry.RegistryState :=
  match TokenRegistry.rstep TokenRegistry.env0 TokenRegistry.reg2
      TokenRegistry.rop3 with
  | .ok s => s
  | .error _ => TokenRegistry.emptyRegistry

/-- Operation `rop3` succeeds and yields `reg3`. -/
theorem TokenRegistry.reg3_def :
    TokenRegistry.rstep TokenRegistry.env0 TokenRegistry.reg2 TokenRegistry.rop3 =
      .ok TokenRegistry.reg3 := rfl

/-- The collecting single-pass loop of the registry's view functions equals
an in-order filter. -/
theorem foldl_snoc_filter {α : Type} (p : α → Prop) [DecidablePred p]
    (l : List α) (acc : List α) :
    l.foldl (fun t a => if p a then t ++ [a] else t) acc =
      acc ++ l.filter (fun a => decide (p a)) := by
  induction l generalizing acc with
  | nil => simp
  | cons x xs ih =>
    simp only [List.foldl_cons, List.filter_cons]
    by_cases hp : p x
    · simp [hp, ih]
    · simp [hp, ih]

/-- C5: `getVerifiedTokens` returns exactly the registered tokens whose
stored verified flag is set, in allTokens order; `getTokensByCreator`
exactly those whose stored creator is the argument; `getTokensByCategory`
rejects `categoryId ≥ totalCategories` with InvalidCategoryId and otherwise
returns exactly the tokens whose stored category is the argument. -/
theorem C5_filtered_queries :
    (∀ s : TokenRegistry.RegistryState,
      TokenRegistry.getVerifiedTokens s =
        s.allTokens.filter (fun a => (s.tokenMetadata a).verified)) ∧
    (∀ (s : TokenRegistry.RegistryState) (creator : Addr),
      TokenRegistry.getTokensByCreator s creator =
        s.allTokens.filter
          (fun a => decide ((s.tokenMetadata a).creator = creator))) ∧
    (∀ (s : TokenRegistry.RegistryState) (cid : Nat), s.totalCategories ≤ cid →
      TokenRegistry.getTokensByCategory s cid = .error .InvalidCategoryId) ∧
    (∀ (s : TokenRegistry.RegistryState) (cid : Nat), cid < s.totalCategories →
      TokenRegistry.getTokensByCategory s cid =
        .ok (s.allTokens.filter
          (fun a => decide ((s.tokenMetadata a).category = cid)))) := by
  refine ⟨?_, ?_, ?_, ?_⟩
  · intro s
    have h := foldl_snoc_filter (fun a => (s.tokenMetadata a).verified = true)
      s.allTokens []
    simpa [TokenRegistry.getVerifiedTokens] using h
  · intro s creator
    have h := foldl_snoc_filter (fun a => (s.tokenMetadata a).creator = creator)
      s.allTokens []
    simpa [TokenRegistry.getTokensByCreator] using h
  · intro s cid hge
    simp [TokenRegistry.getTokensByCategory, hge]
  · intro s cid hlt
    have h := foldl_snoc_filter (fun a => (s.tokenMetadata a).category = cid)
      s.allTokens []
    simp [TokenRegistry.getTokensByCategory, Nat.not_le.mpr hlt]
    simpa using h

/-- Witness for C5's guarded query at a concrete out-of-range category id. -/
theorem C5_filtered_queries_witness :
    TokenRegistry.getVerifiedTokens TokenRegistry.reg1 =
      TokenRegistry.reg1.allTokens.filter
        (fun a => (TokenRegistry.reg1.tokenMetadata a).verified) ∧
    TokenRegistry.getTokensByCategory TokenRegistry.reg1 9 =
      .error .InvalidCategoryId ∧
    TokenRegistry.getTokensByCategory TokenRegistry.reg1 0 =
      .ok (TokenRegistry.reg1.allTokens.filter
        (fun a => decide ((TokenRegistry.reg1.tokenMetadata a).category = 0))) :=
  ⟨C5_filtered_queries.1 TokenRegistry.reg1,
   C5_filtered_queries.2.2.1 TokenRegistry.reg1 9 (by decide),
   C5_filtered_queries.2.2.2 TokenRegistry.reg1 0 (by decide)⟩

/-- Shape of a successful `_registerToken`: which guards held, what the new
metadata record says, the ledger append, and the two creator-update cases. -/
theorem TokenRegistry._registerToken_ok (env : TokenRegistry.TokenEnv)
    (s : TokenRegistry.RegistryState) (mv ts : Nat) (t : Addr) (d w l : String)
    (cat : Nat) (tags : List String) (cr : Addr) (s' : TokenRegistry.RegistryState)
    (h : TokenRegistry._registerToken env s mv ts t d w l cat tags cr = .ok s') :
    s.registryPaused = false ∧
    t ≠ 0 ∧
    (s.tokenMetadata t).active = false ∧
    cat < s.totalCategories ∧
    s.registrationFee ≤ mv ∧
    (∀ a, a ≠ t → s'.tokenMetadata a = s.tokenMetadata a) ∧
    ((s'.tokenMetadata t).active = true ∧ (s'.tokenMetadata t).verified = false ∧
      (s'.tokenMetadata t).creator = cr ∧ (s'.tokenMetadata t).category = cat ∧
      (s'.tokenMetadata t).description = d ∧ (s'.tokenMetadata t).website = w ∧
      (s'.tokenMetadata t).logo = l ∧ (s'.tokenMetadata t).registeredAt = ts) ∧
    s'.allTokens = s.allTokens ++ [t] ∧
    s'.totalTokensRegistered = s.totalTokensRegistered + 1 ∧
    (∀ c, c ≠ cr → s'.creatorInfo c = s.creatorInfo c) ∧
    ((s.creatorInfo cr).creator = 0 →
      s'.creatorInfo cr =
        { creator := cr, totalTokens := 1, verifiedTokens := 0, totalVolume := 0,
          lastActivity := ts, verified := false, name := "", description := "" }) ∧
    ((s.creatorInfo cr).creator ≠ 0 →
      s'.creatorInfo cr =
        { s.creatorInfo cr with
          totalTokens := (s.creatorInfo cr).totalTokens + 1,
          lastActivity := ts }) := by
  simp only [TokenRegistry._registerToken, require_ok, requireSome_ok] at h
  obtain ⟨hp, ht0, hact, hcat, hfee, nm, hnm, sym, hsym, hnml, hsyl, h⟩ := h
  split at h
  · rename_i hc
    injection h with h
    subst h
    exact ⟨by simpa using hp, ht0, by simpa using hact, Nat.not_le.mp hcat,
      Nat.not_lt.mp hfee, fun a ha => by simp [ha], by simp, rfl, rfl,
      fun c hcne => by simp [hcne], fun _ => by simp,
      fun hne => absurd hc hne⟩
  · rename_i hc
    injection h with h
    subst h
    exact ⟨by simpa using hp, ht0, by simpa using hact, Nat.not_le.mp hcat,
      Nat.not_lt.mp hfee, fun a ha => by simp [ha], by simp, rfl, rfl,
      fun c hcne => by simp [hcne], fun h0 => absurd h0 hc,
      fun _ => by simp⟩

/-- Shape of a successful `updateTokenMetadata`: only the three descriptive
fields of the one record change, and only the creator could call it. -/
theorem TokenRegistry.updateTokenMetadata_ok (s : TokenRegistry.RegistryState)
    (caller t : Addr) (d w l : String) (s' : TokenRegistry.RegistryState)
    (h : TokenRegistry.updateTokenMetadata s caller t d w l = .ok s') :
    (s.tokenMetadata t).creator = caller ∧
    (s.tokenMetadata t).active = true ∧
    (∀ a, a ≠ t → s'.tokenMetadata a = s.tokenMetadata a) ∧
    s'.tokenMetadata t =
      { s.tokenMetadata t with description := d, website := w, logo := l } ∧
    s'.creatorInfo = s.creatorInfo ∧ s'.allTokens = s.allTokens ∧
    s'.totalTokensRegistered = s.totalTokensRegistered ∧ s'.owner = s.owner := by
  simp only [TokenRegistry.updateTokenMetadata, require_ok] at h
  obtain ⟨hcr, hact, h⟩ := h
  injection h with h
  subst h
  exact ⟨not_not.mp hcr, by simpa using hact, fun a ha => by simp [ha],
    by simp, rfl, rfl, rfl, rfl⟩

/-- Shape of a successful `setTokenVerification`: owner-only, flips the flag
of the one record, and blindly bumps the creator's verifiedTokens counter up
or (when nonzero) down. -/
theorem TokenRegistry.setTokenVerification_ok (s : TokenRegistry.RegistryState)
    (caller t : Addr) (v : Bool) (s' : TokenRegistry.RegistryState)
    (h : TokenRegistry.setTokenVerification s caller t v = .ok s') :
    caller = s.owner ∧
    (s.tokenMetadata t).active = true ∧
    (∀ a, a ≠ t → s'.tokenMetadata a = s.tokenMetadata a) ∧
    s'.tokenMetadata t = { s.tokenMetadata t with verified := v } ∧
    (∀ c, c ≠ (s.tokenMetadata t).creator → s'.creatorInfo c = s.creatorInfo c) ∧
    (v = true →
      s'.creatorInfo (s.tokenMetadata t).creator =
        { s.creatorInfo (s.tokenMetadata t).creator with
          verifiedTokens :=
            (s.creatorInfo (s.tokenMetadata t).creator).verifiedTokens + 1 }) ∧
    (v = false →
      (s.creatorInfo (s.tokenMetadata t).creator).verifiedTokens ≠ 0 ∧
      s'.creatorInfo (s.tokenMetadata t).creator =
        { s.creatorInfo (s.tokenMetadata t).creator with
          verifiedTokens :=
            (s.creatorInfo (s.tokenMetadata t).creator).verifiedTokens - 1 }) ∧
    s'.allTokens = s.allTokens ∧
    s'.totalTokensRegistered = s.totalTokensRegistered := by
  simp only [TokenRegistry.setTokenVerification, require_ok] at h
  obtain ⟨hown, hact, h⟩ := h
  split at h
  · rename_i hv
    injection h with h
    subst h
    refine ⟨not_not.mp hown, by simpa using hact, fun a ha => by simp [ha],
      by simp, fun c hc => by simp [hc], fun _ => by simp, ?_, rfl, rfl⟩
    intro hf
    rw [hv] at hf
    exact Bool.noConfusion hf
  · rename_i hv
    simp only [require_ok] at h
    obtain ⟨hz, h⟩ := h
    injection h with h
    subst h
    refine ⟨not_not.mp hown, by simpa using hact, fun a ha => by simp [ha],
      ?_, fun c hc => by simp [hc], ?_, fun _ => ⟨by simpa using hz, by simp⟩,
      rfl, rfl⟩
    · have hvf : v = false := by
        cases v
        · rfl
        · exact absurd rfl hv
      rw [hvf]
      simp
    · intro htr
      exact absurd htr hv

/-- Unverifying a token whose creator counter is zero panics with checked
arithmetic (Solidity 0.8), reverting the call. -/
theorem TokenRegistry.setTokenVerification_underflow
    (s : TokenRegistry.RegistryState) (t : Addr)
    (hact : (s.tokenMetadata t).active = true)
    (hz : (s.creatorInfo (s.tokenMetadata t).creator).verifiedTokens = 0) :
    TokenRegistry.setTokenVerification s s.owner t false =
      .error .ArithmeticUnderflow := by
  simp [TokenRegistry.setTokenVerification, require, hact, hz]

/-- Which registry operations can write to tokenMetadata at all. -/
def TokenRegistry.Op.touchesMetadata : TokenRegistry.Op → Bool
  | .registerToken .. => true
  | .registerTokenForCreator .. => true
  | .updateTokenMetadata .. => true
  | .setTokenVerification .. => true
  | _ => false

/-- Which registry operations register a token. -/
def TokenRegistry.Op.isRegister : TokenRegistry.Op → Bool
  | .registerToken .. => true
  | .registerTokenForCreator .. => true
  | _ => false

/-- Operations that never touch tokenMetadata also leave the token ledger
and its counter unchanged. -/
theorem TokenRegistry.rstep_frame (env : TokenRegistry.TokenEnv)
    (s : TokenRegistry.RegistryState) (op : TokenRegistry.Op)
    (s' : TokenRegistry.RegistryState)
    (h : TokenRegistry.rstep env s op = .ok s')
    (hop : op.touchesMetadata = false) :
    s'.tokenMetadata = s.tokenMetadata ∧ s'.allTokens = s.allTokens ∧
    s'.totalTokensRegistered = s.totalTokensRegistered := by
  cases op <;> simp only [TokenRegistry.Op.touchesMetadata] at hop
  all_goals try exact Bool.noConfusion hop
  all_goals
    simp only [TokenRegistry.rstep, TokenRegistry.registerCreator,
      TokenRegistry.updateCreatorInfo, TokenRegistry.setRegistrationFee,
      TokenRegistry.setRegistryPaused, TokenRegistry.setVerificationRequirements,
      TokenRegistry.setCreatorVerification, TokenRegistry.createCategory,
      TokenRegistry.updateCategory, TokenRegistry.withdrawFees,
      TokenRegistry.transferOwnership, TokenRegistry.renounceOwnership,
      TokenRegistry._createCategory, require_ok] at h
  all_goals repeat' split at h
  all_goals
    first
      | (obtain ⟨-, -, -, h⟩ := h
         injection h with h
         subst h
         exact ⟨rfl, rfl, rfl⟩)
      | (obtain ⟨-, -, h⟩ := h
         injection h with h
         subst h
         exact ⟨rfl, rfl, rfl⟩)
      | (obtain ⟨-, h⟩ := h
         injection h with h
         subst h
         exact ⟨rfl, rfl, rfl⟩)
      | (injection h with h
         subst h
         exact ⟨rfl, rfl, rfl⟩)

/-- One registry transaction either preserves a creator's totalVolume or
writes the constant 0 to it: no operation ever accumulates volume. -/
theorem TokenRegistry.rstep_volume (env : TokenRegistry.TokenEnv)
    (s : TokenRegistry.RegistryState) (op : TokenRegistry.Op)
    (s' : TokenRegistry.RegistryState) (h : TokenRegistry.rstep env s op = .ok s')
    (c : Addr) :
    (s'.creatorInfo c).totalVolume = (s.creatorInfo c).totalVolume ∨
    (s'.creatorInfo c).totalVolume = 0 := by
  cases op with
  | registerToken caller mv ts t d w l cat tags =>
    obtain ⟨-, -, -, -, -, -, -, -, -, hfr, hnew, hold⟩ :=
      TokenRegistry._registerToken_ok env s mv ts t d w l cat tags caller s'
        (by simpa [TokenRegistry.rstep, TokenRegistry.registerToken] using h)
    by_cases hc : c = caller
    · subst hc
      by_cases h0 : (s.creatorInfo c).creator = 0
      · right
        rw [hnew h0]
      · left
        rw [hold h0]
    · left
      rw [hfr c hc]
  | registerTokenForCreator caller mv ts t d w l cat tags cr =>
    obtain ⟨-, -, -, -, -, -, -, -, -, hfr, hnew, hold⟩ :=
      TokenRegistry._registerToken_ok env s mv ts t d w l cat tags cr s'
        (by simpa [TokenRegistry.rstep, TokenRegistry.registerTokenForCreator]
          using h)
    by_cases hc : c = cr
    · subst hc
      by_cases h0 : (s.creatorInfo c).creator = 0
      · right
        rw [hnew h0]
      · left
        rw [hold h0]
    · left
      rw [hfr c hc]
  | updateTokenMetadata caller t d w l =>
    obtain ⟨-, -, -, -, hci, -, -, -⟩ :=
      TokenRegistry.updateTokenMetadata_ok s caller t d w l s'
        (by simpa [TokenRegistry.rstep] using h)
    left
    rw [hci]
  | setTokenVerification caller t v =>
    obtain ⟨-, -, -, -, hfr, htr, hfa, -, -⟩ :=
      TokenRegistry.setTokenVerification_ok s caller t v s'
        (by simpa [TokenRegistry.rstep] using h)
    by_cases hc : c = (s.tokenMetadata t).creator
    · subst hc
      cases v
      · left
        rw [(hfa rfl).2]
      · left
        rw [htr rfl]
    · left
      rw [hfr c hc]
  | registerCreator caller ts n d =>
    simp only [TokenRegistry.rstep, TokenRegistry.registerCreator,
      require_ok] at h
    obtain ⟨-, -, h⟩ := h
    split at h
    · rename_i hin
      injection h with h
      subst h
      by_cases hc : c = caller
      · subst hc
        right
        simp [hin]
      · left
        simp [hc]
    · rename_i hin
      injection h with h
      subst h
      by_cases hc : c = caller
      · subst hc
        left
        simp [hin]
      · left
        simp [hc]
  | updateCreatorInfo caller ts n d =>
    simp only [TokenRegistry.rstep, TokenRegistry.updateCreatorInfo,
      require_ok] at h
    obtain ⟨-, -, -, h⟩ := h
    injection h with h
    subst h
    by_cases hc : c = caller
    · subst hc
      left
      simp
    · left
      simp [hc]
  | setCreatorVerification caller cr v =>
    simp only [TokenRegistry.rstep, TokenRegistry.setCreatorVerification,
      require_ok] at h
    obtain ⟨-, -, h⟩ := h
    injection h with h
    subst h
    by_cases hc : c = cr
    · subst hc
      left
      simp
    · left
      simp [hc]
  | setRegistrationFee caller fee =>
    simp only [TokenRegistry.rstep, TokenRegistry.setRegistrationFee,
      require_ok] at h
    obtain ⟨-, h⟩ := h
    injection h with h
    subst h
    left
    rfl
  | setRegistryPaused caller p =>
    simp only [TokenRegistry.rstep, TokenRegistry.setRegistryPaused,
      require_ok] at h
    obtain ⟨-, h⟩ := h
    injection h with h
    subst h
    left
    rfl
  | setVerificationRequirements caller mt mv =>
    simp only [TokenRegistry.rstep, TokenRegistry.setVerificationRequirements,
      require_ok] at h
    obtain ⟨-, h⟩ := h
    injection h with h
    subst h
    left
    rfl
  | createCategory caller n d =>
    simp only [TokenRegistry.rstep, TokenRegistry.createCategory,
      require_ok] at h
    obtain ⟨-, h⟩ := h
    injection h with h
    subst h
    left
    rfl
  | updateCategory caller cid n d a =>
    simp only [TokenRegistry.rstep, TokenRegistry.updateCategory,
      require_ok] at h
    obtain ⟨-, -, h⟩ := h
    injection h with h
    subst h
    left
    rfl
  | withdrawFees caller amount to_ =>
    simp only [TokenRegistry.rstep, TokenRegistry.withdrawFees,
      require_ok] at h
    obtain ⟨-, -, -, h⟩ := h
    injection h with h
    subst h
    left
    rfl
  | transferOwnership caller newOwner =>
    simp only [TokenRegistry.rstep, TokenRegistry.transferOwnership,
      require_ok] at h
    obtain ⟨-, -, h⟩ := h
    injection h with h
    subst h
    left
    rfl
  | renounceOwnership caller =>
    simp only [TokenRegistry.rstep, TokenRegistry.renounceOwnership,
      require_ok] at h
    obtain ⟨-, h⟩ := h
    injection h with h
    subst h
    left
    rfl
  | receiveEth value =>
    simp only [TokenRegistry.rstep] at h
    injection h with h
    subst h
    left
    rfl

/-- In every reachable registry state every creator's totalVolume is 0. -/
theorem TokenRegistry.rreachable_volume (env : TokenRegistry.TokenEnv)
    (s : TokenRegistry.RegistryState) (h : TokenRegistry.RReachable env s) :
    ∀ c, (s.creatorInfo c).totalVolume = 0 := by
  induction h with
  | deployed o fee f mt mv s hd =>
    simp only [TokenRegistry.deployRegistry, require_ok] at hd
    obtain ⟨-, -, hd⟩ := hd
    injection hd with hd
    subst hd
    intro c
    rfl
  | step s op s' hs hstep ih =>
    intro c
    rcases TokenRegistry.rstep_volume env s op s' hstep c with hp | hz
    · rw [hp]
      exact ih c
    · exact hz

/-- One factory transaction either leaves the allTokens ledger and its
counter unchanged, or appends exactly one address and bumps the counter. -/
theorem TokenFactory.fstep_ledger (s : TokenFactory.FactoryState)
    (op : TokenFactory.Op) (s' : TokenFactory.FactoryState)
    (h : TokenFactory.fstep s op = .ok s') :
    (s'.allTokens = s.allTokens ∧
      s'.totalTokensDeployed = s.totalTokensDeployed) ∨
    ∃ a, s'.allTokens = s.allTokens ++ [a] ∧
      s'.totalTokensDeployed = s.totalTokensDeployed + 1 := by
  cases hd : op.isDeploy with
  | false =>
    obtain ⟨-, h2, h3, -⟩ := TokenFactory.fstep_nondeploy_frame s op s' hd h
    exact Or.inl ⟨h2, h3⟩
  | true =>
    cases op <;> simp only [TokenFactory.Op.isDeploy] at hd
    all_goals try exact Bool.noConfusion hd
    · rename_i caller value nm sy i m me be pe ts
      simp only [TokenFactory.fstep, TokenFactory.deployToken, Except.map] at h
      repeat' split at h
      all_goals try exact Except.noConfusion h
      rename_i v heq
      injection h with h
      subst h
      obtain ⟨-, -, h3, h4⟩ :=
        TokenFactory._deployToken_ok_shape s caller value nm sy i m caller
          me be pe ts v heq
      exact Or.inr ⟨s.nextTokenAddr, h3, h4⟩
    · rename_i caller value nm sy i m own me be pe ts
      simp only [TokenFactory.fstep, TokenFactory.deployTokenWithOwner,
        Except.map] at h
      repeat' split at h
      all_goals try exact Except.noConfusion h
      rename_i v heq
      injection h with h
      subst h
      obtain ⟨-, -, h3, h4⟩ :=
        TokenFactory._deployToken_ok_shape s caller value nm sy i m own
          me be pe ts v heq
      exact Or.inr ⟨s.nextTokenAddr, h3, h4⟩

/-- In every reachable factory state, totalTokensDeployed equals the length
of the allTokens ledger. -/
theorem TokenFactory.freachable_count (s : TokenFactory.FactoryState)
    (h : TokenFactory.FReachable s) :
    s.totalTokensDeployed = s.allTokens.length := by
  induction h with
  | deployed o fee mx s hd =>
    simp only [TokenFactory.deployFactory] at hd
    repeat' split at hd
    all_goals try exact Except.noConfusion hd
    injection hd with hd
    subst hd
    rfl
  | step s op s' hs hstep ih =>
    rcases TokenFactory.fstep_ledger s op s' hstep with ⟨h1, h2⟩ | ⟨a, h1, h2⟩
    · rw [h1, h2]
      exact ih
    · rw [h1, h2, ih, List.length_append]
      rfl

/-- One registry transaction either leaves the allTokens ledger and its
counter unchanged, or appends exactly one address and bumps the counter. -/
theorem TokenRegistry.rstep_ledger (env : TokenRegistry.TokenEnv)
    (s : TokenRegistry.RegistryState) (op : TokenRegistry.Op)
    (s' : TokenRegistry.RegistryState) (h : TokenRegistry.rstep env s op = .ok s') :
    (s'.allTokens = s.allTokens ∧
      s'.totalTokensRegistered = s.totalTokensRegistered) ∨
    ∃ t, s'.allTokens = s.allTokens ++ [t] ∧
      s'.totalTokensRegistered = s.totalTokensRegistered + 1 := by
  cases op
  case registerToken caller mv ts t d w l cat tags =>
    obtain ⟨-, -, -, -, -, -, -, h8, h9, -, -, -⟩ :=
      TokenRegistry._registerToken_ok env s mv ts t d w l cat tags caller s'
        (by simpa [TokenRegistry.rstep, TokenRegistry.registerToken] using h)
    exact Or.inr ⟨t, h8, h9⟩
  case registerTokenForCreator caller mv ts t d w l cat tags cr =>
    obtain ⟨-, -, -, -, -, -, -, h8, h9, -, -, -⟩ :=
      TokenRegistry._registerToken_ok env s mv ts t d w l cat tags cr s'
        (by simpa [TokenRegistry.rstep, TokenRegistry.registerTokenForCreator]
          using h)
    exact Or.inr ⟨t, h8, h9⟩
  case updateTokenMetadata caller t d w l =>
    obtain ⟨-, -, -, -, -, h6, h7, -⟩ :=
      TokenRegistry.updateTokenMetadata_ok s caller t d w l s'
        (by simpa [TokenRegistry.rstep] using h)
    exact Or.inl ⟨h6, h7⟩
  case setTokenVerification caller t v =>
    obtain ⟨-, -, -, -, -, -, -, h8, h9⟩ :=
      TokenRegistry.setTokenVerification_ok s caller t v s'
        (by simpa [TokenRegistry.rstep] using h)
    exact Or.inl ⟨h8, h9⟩
  all_goals
    (have hfr := TokenRegistry.rstep_frame env s _ s' h rfl
     exact Or.inl ⟨hfr.2.1, hfr.2.2⟩)

/-- In every reachable registry state, totalTokensRegistered equals the
length of the allTokens ledger. -/
theorem TokenRegistry.rreachable_count (env : TokenRegistry.TokenEnv)
    (s : TokenRegistry.RegistryState) (h : TokenRegistry.RReachable env s) :
    s.totalTokensRegistered = s.allTokens.length := by
  induction h with
  | deployed o fee f mt mv s hd =>
    simp only [TokenRegistry.deployRegistry, require_ok] at hd
    obtain ⟨-, -, hd⟩ := hd
    injection hd with hd
    subst hd
    rfl
  | step s op s' hs hstep ih =>
    rcases TokenRegistry.rstep_ledger env s op s' hstep with
      ⟨h1, h2⟩ | ⟨t, h1, h2⟩
    · rw [h1, h2]
      exact ih
    · rw [h1, h2, ih, List.length_append]
      rfl

/-- C9: both ledgers are append-only — every factory or registry operation
either leaves allTokens unchanged or appends exactly one element (so no
element is ever removed or overwritten), and in every reachable state the
counters totalTokensDeployed / totalTokensRegistered equal the length of
the respective allTokens array. -/
theorem C9_append_only_ledgers :
    (∀ (s : TokenFactory.FactoryState) (op : TokenFactory.Op)
        (s' : TokenFactory.FactoryState), TokenFactory.fstep s op = .ok s' →
      s'.allTokens = s.allTokens ∨ ∃ a, s'.allTokens = s.allTokens ++ [a]) ∧
    (∀ (env : TokenRegistry.TokenEnv) (s : TokenRegistry.RegistryState)
        (op : TokenRegistry.Op) (s' : TokenRegistry.RegistryState),
      TokenRegistry.rstep env s op = .ok s' →
      s'.allTokens = s.allTokens ∨ ∃ t, s'.allTokens = s.allTokens ++ [t]) ∧
    (∀ s : TokenFactory.FactoryState, TokenFactory.FReachable s →
      s.totalTokensDeployed = s.allTokens.length) ∧
    (∀ (env : TokenRegistry.TokenEnv) (s : TokenRegistry.RegistryState),
      TokenRegistry.RReachable env s →
      s.totalTokensRegistered = s.allTokens.length) := by
  refine ⟨?_, ?_, TokenFactory.freachable_count, TokenRegistry.rreachable_count⟩
  · intro s op s' h
    rcases TokenFactory.fstep_ledger s op s' h with ⟨h1, -⟩ | ⟨a, h1, -⟩
    · exact Or.inl h1
    · exact Or.inr ⟨a, h1⟩
  · intro env s op s' h
    rcases TokenRegistry.rstep_ledger env s op s' h with ⟨h1, -⟩ | ⟨t, h1, -⟩
    · exact Or.inl h1
    · exact Or.inr ⟨t, h1⟩

/-- Witness for C9 at the concrete deployment and registration above. -/
theorem C9_append_only_ledgers_witness :
    (TokenFactory.fac1.allTokens = TokenFactory.fac0.allTokens ∨
      ∃ a, TokenFactory.fac1.allTokens = TokenFactory.fac0.allTokens ++ [a]) ∧
    (TokenRegistry.reg1.allTokens = TokenRegistry.reg0.allTokens ∨
      ∃ t, TokenRegistry.reg1.allTokens = TokenRegistry.reg0.allTokens ++ [t]) ∧
    TokenFactory.fac1.totalTokensDeployed = TokenFactory.fac1.allTokens.length ∧
    TokenRegistry.reg1.totalTokensRegistered =
      TokenRegistry.reg1.allTokens.length :=
  ⟨C9_append_only_ledgers.1 TokenFactory.fac0 TokenFactory.fop1
      TokenFactory.fac1 rfl,
   C9_append_only_ledgers.2.1 TokenRegistry.env0 TokenRegistry.reg0
      TokenRegistry.rop1 TokenRegistry.reg1 TokenRegistry.reg1_def,
   C9_append_only_ledgers.2.2.1 TokenFactory.fac1
      (TokenFactory.FReachable.step TokenFactory.fac0 TokenFactory.fop1
        TokenFactory.fac1
        (TokenFactory.FReachable.deployed 1 100 3 TokenFactory.fac0 rfl) rfl),
   C9_append_only_ledgers.2.2.2 TokenRegistry.env0 TokenRegistry.reg1
      (TokenRegistry.RReachable.step TokenRegistry.reg0 TokenRegistry.rop1
        TokenRegistry.reg1
        (TokenRegistry.RReachable.deployed 1 10 7 0 0 TokenRegistry.reg0 rfl)
        TokenRegistry.reg1_def)⟩

/-- Equality of all TokenMetadata fields except the three descriptive ones
(description, website, logo). -/
def TokenRegistry.SameExceptDescriptive
    (m m' : TokenRegistry.TokenMetadata) : Prop :=
  m'.tokenAddress = m.tokenAddress ∧ m'.name = m.name ∧ m'.symbol = m.symbol ∧
  m'.decimals = m.decimals ∧ m'.totalSupply = m.totalSupply ∧
  m'.maxSupply = m.maxSupply ∧ m'.creator = m.creator ∧
  m'.registeredAt = m.registeredAt ∧ m'.verified = m.verified ∧
  m'.active = m.active ∧ m'.category = m.category ∧ m'.tags = m.tags

/-- Equality of all TokenMetadata fields except the verified flag. -/
def TokenRegistry.SameExceptVerified
    (m m' : TokenRegistry.TokenMetadata) : Prop :=
  m'.tokenAddress = m.tokenAddress ∧ m'.name = m.name ∧ m'.symbol = m.symbol ∧
  m'.decimals = m.decimals ∧ m'.totalSupply = m.totalSupply ∧
  m'.maxSupply = m.maxSupply ∧ m'.creator = m.creator ∧
  m'.registeredAt = m.registeredAt ∧ m'.description = m.description ∧
  m'.website = m.website ∧ m'.logo = m.logo ∧
  m'.active = m.active ∧ m'.category = m.category ∧ m'.tags = m.tags

/-- Any successful operation that changes the stored metadata of a
registered token is either the creator editing the three descriptive
fields, or the owner toggling the verified flag. -/
theorem TokenRegistry.rstep_metadata_mutation (env : TokenRegistry.TokenEnv)
    (s : TokenRegistry.RegistryState) (op : TokenRegistry.Op)
    (s' : TokenRegistry.RegistryState) (h : TokenRegistry.rstep env s op = .ok s')
    (t : Addr) (hact : (s.tokenMetadata t).active = true)
    (hch : s'.tokenMetadata t ≠ s.tokenMetadata t) :
    (op.caller = (s.tokenMetadata t).creator ∧
      TokenRegistry.SameExceptDescriptive (s.tokenMetadata t)
        (s'.tokenMetadata t)) ∨
    (op.caller = s.owner ∧
      TokenRegistry.SameExceptVerified (s.tokenMetadata t)
        (s'.tokenMetadata t)) := by
  cases op
  case registerToken caller mv ts t0 d w l cat tags =>
    obtain ⟨-, -, hreg, -, -, h6, -, -, -, -, -, -⟩ :=
      TokenRegistry._registerToken_ok env s mv ts t0 d w l cat tags caller s'
        (by simpa [TokenRegistry.rstep, TokenRegistry.registerToken] using h)
    by_cases hte : t = t0
    · rw [hte] at hact
      rw [hreg] at hact
      exact Bool.noConfusion hact
    · exact absurd (h6 t hte) hch
  case registerTokenForCreator caller mv ts t0 d w l cat tags cr =>
    obtain ⟨-, -, hreg, -, -, h6, -, -, -, -, -, -⟩ :=
      TokenRegistry._registerToken_ok env s mv ts t0 d w l cat tags cr s'
        (by simpa [TokenRegistry.rstep, TokenRegistry.registerTokenForCreator]
          using h)
    by_cases hte : t = t0
    · rw [hte] at hact
      rw [hreg] at hact
      exact Bool.noConfusion hact
    · exact absurd (h6 t hte) hch
  case updateTokenMetadata caller t0 d w l =>
    obtain ⟨hcr, -, h3, h4, -, -, -, -⟩ :=
      TokenRegistry.updateTokenMetadata_ok s caller t0 d w l s'
        (by simpa [TokenRegistry.rstep] using h)
    by_cases hte : t = t0
    · subst hte
      left
      refine ⟨hcr.symm, ?_⟩
      rw [h4]
      exact ⟨rfl, rfl, rfl, rfl, rfl, rfl, rfl, rfl, rfl, rfl, rfl, rfl⟩
    · exact absurd (h3 t hte) hch
  case setTokenVerification caller t0 v =>
    obtain ⟨hown, -, h3, h4, -, -, -, -, -⟩ :=
      TokenRegistry.setTokenVerification_ok s caller t0 v s'
        (by simpa [TokenRegistry.rstep] using h)
    by_cases hte : t = t0
    · subst hte
      right
      refine ⟨hown, ?_⟩
      rw [h4]
      exact ⟨rfl, rfl, rfl, rfl, rfl, rfl, rfl, rfl, rfl, rfl, rfl, rfl, rfl,
        rfl⟩
    · exact absurd (h3 t hte) hch
  all_goals
    (have hfr := TokenRegistry.rstep_frame env s _ s' h rfl
     exact absurd (congrFun hfr.1 t) hch)

/-- Creator 9 edits the descriptive fields of token 5. -/
def TokenRegistry.ropU : TokenRegistry.Op :=
  .updateTokenMetadata 9 5 ("nd") ("nw") ("nl")

/-- The registry after `ropU`. -/
def TokenRegistry.regU : TokenRegistry.RegistryState :=
  match TokenRegistry.rstep TokenRegistry.env0 TokenRegistry.reg1
      TokenRegistry.ropU with
  | .ok s => s
  | .error _ => TokenRegistry.emptyRegistry

/-- Operation `ropU` succeeds and yields `regU`. -/
theorem TokenRegistry.regU_def :
    TokenRegistry.rstep TokenRegistry.env0 TokenRegistry.reg1 TokenRegistry.ropU =
      .ok TokenRegistry.regU := rfl

/-- C4: after registration, the stored TokenMetadata of a token changes only
when the token's creator edits description/website/logo (updateTokenMetadata
reverts with OnlyCreator for any other caller) or when the registry owner
toggles the verified flag (setTokenVerification reverts with the Ownable
error for any non-owner); no other field and no other caller can change the
record. -/
theorem C4_metadata_mutation_authority :
    (∀ (env : TokenRegistry.TokenEnv) (s : TokenRegistry.RegistryState)
        (op : TokenRegistry.Op) (s' : TokenRegistry.RegistryState),
      TokenRegistry.rstep env s op = .ok s' →
      ∀ t, (s.tokenMetadata t).active = true →
        s'.tokenMetadata t ≠ s.tokenMetadata t →
        (op.caller = (s.tokenMetadata t).creator ∧
          TokenRegistry.SameExceptDescriptive (s.tokenMetadata t)
            (s'.tokenMetadata t)) ∨
        (op.caller = s.owner ∧
          TokenRegistry.SameExceptVerified (s.tokenMetadata t)
            (s'.tokenMetadata t))) ∧
    (∀ (s : TokenRegistry.RegistryState) (caller t : Addr) (d w l : String),
      (s.tokenMetadata t).creator ≠ caller →
      TokenRegistry.updateTokenMetadata s caller t d w l =
        .error .OnlyCreator) ∧
    (∀ (s : TokenRegistry.RegistryState) (caller t : Addr) (v : Bool),
      caller ≠ s.owner →
      TokenRegistry.setTokenVerification s caller t v =
        .error .OwnableUnauthorizedAccount) := by
  refine ⟨?_, ?_, ?_⟩
  · intro env s op s' h t hact hch
    exact TokenRegistry.rstep_metadata_mutation env s op s' h t hact hch
  · intro s caller t d w l hcr
    simp [TokenRegistry.updateTokenMetadata, require, hcr]
  · intro s caller t v hc
    simp [TokenRegistry.setTokenVerification, require, hc]

/-- Witness for C4: creator 9's edit of token 5 is classified as a
creator-edit; caller 8 cannot edit it; caller 2 cannot verify it. -/
theorem C4_metadata_mutation_authority_witness :
    ((TokenRegistry.ropU.caller =
        (TokenRegistry.reg1.tokenMetadata 5).creator ∧
      TokenRegistry.SameExceptDescriptive
        (TokenRegistry.reg1.tokenMetadata 5)
        (TokenRegistry.regU.tokenMetadata 5)) ∨
     (TokenRegistry.ropU.caller = TokenRegistry.reg1.owner ∧
      TokenRegistry.SameExceptVerified (TokenRegistry.reg1.tokenMetadata 5)
        (TokenRegistry.regU.tokenMetadata 5))) ∧
    TokenRegistry.updateTokenMetadata TokenRegistry.reg1 8 5 ("x") ("y") ("z") =
      .error .OnlyCreator ∧
    TokenRegistry.setTokenVerification TokenRegistry.reg1 2 5 true =
      .error .OwnableUnauthorizedAccount :=
  ⟨C4_metadata_mutation_authority.1 TokenRegistry.env0 TokenRegistry.reg1
      TokenRegistry.ropU TokenRegistry.regU TokenRegistry.regU_def 5
      (by decide) (by decide),
   C4_metadata_mutation_authority.2.1 TokenRegistry.reg1 8 5 ("x") ("y") ("z")
      (by decide),
   C4_metadata_mutation_authority.2.2 TokenRegistry.reg1 2 5 true (by decide)⟩

/-- C2 counterexample: a concrete registration event (creator 9 registers
token 5) and a concrete verification event (the owner verifies token 5)
update totalTokens and verifiedTokens, but neither updates the creator's
totalVolume — it stays exactly 0 through both events, so the claim that
totalVolume is "likewise updated incrementally on each
registration/verification event" is false on this input. -/
theorem C2_creator_counters_counterexample :
    TokenRegistry.rstep TokenRegistry.env0 TokenRegistry.reg0 TokenRegistry.rop1 =
      .ok TokenRegistry.reg1 ∧
    TokenRegistry.rstep TokenRegistry.env0 TokenRegistry.reg1 TokenRegistry.rop2 =
      .ok TokenRegistry.reg2 ∧
    (TokenRegistry.reg1.creatorInfo 9).totalTokens =
      (TokenRegistry.reg0.creatorInfo 9).totalTokens + 1 ∧
    (TokenRegistry.reg2.creatorInfo 9).verifiedTokens =
      (TokenRegistry.reg1.creatorInfo 9).verifiedTokens + 1 ∧
    (TokenRegistry.reg0.creatorInfo 9).totalVolume = 0 ∧
    (TokenRegistry.reg1.creatorInfo 9).totalVolume =
      (TokenRegistry.reg0.creatorInfo 9).totalVolume ∧
    (TokenRegistry.reg2.creatorInfo 9).totalVolume =
      (TokenRegistry.reg1.creatorInfo 9).totalVolume :=
  ⟨TokenRegistry.reg1_def, TokenRegistry.reg2_def, by decide, by decide,
   by decide, by decide, by decide⟩

/-- C2 (amended): registering a token increments the creator's totalTokens
(initializing it to 1 for a first-time creator) and refreshes lastActivity,
and verifying/unverifying a token adjusts the creator's verifiedTokens up or
down; totalVolume, however, is never updated by any registry operation — it
is 0 in every reachable registry state. -/
theorem C2_creator_counters_amended :
    (∀ (env : TokenRegistry.TokenEnv) (s : TokenRegistry.RegistryState)
        (mv ts : Nat) (t : Addr) (d w l : String) (cat : Nat)
        (tags : List String) (cr : Addr) (s' : TokenRegistry.RegistryState),
      TokenRegistry._registerToken env s mv ts t d w l cat tags cr = .ok s' →
      ((s.creatorInfo cr).creator = 0 →
        (s'.creatorInfo cr).totalTokens = 1 ∧
        (s'.creatorInfo cr).lastActivity = ts ∧
        (s'.creatorInfo cr).verifiedTokens = 0 ∧
        (s'.creatorInfo cr).totalVolume = 0) ∧
      ((s.creatorInfo cr).creator ≠ 0 →
        (s'.creatorInfo cr).totalTokens = (s.creatorInfo cr).totalTokens + 1 ∧
        (s'.creatorInfo cr).lastActivity = ts ∧
        (s'.creatorInfo cr).verifiedTokens =
          (s.creatorInfo cr).verifiedTokens ∧
        (s'.creatorInfo cr).totalVolume = (s.creatorInfo cr).totalVolume)) ∧
    (∀ (s : TokenRegistry.RegistryState) (caller t : Addr) (v : Bool)
        (s' : TokenRegistry.RegistryState),
      TokenRegistry.setTokenVerification s caller t v = .ok s' →
      (v = true →
        (s'.creatorInfo (s.tokenMetadata t).creator).verifiedTokens =
          (s.creatorInfo (s.tokenMetadata t).creator).verifiedTokens + 1) ∧
      (v = false →
        (s'.creatorInfo (s.tokenMetadata t).creator).verifiedTokens =
          (s.creatorInfo (s.tokenMetadata t).creator).verifiedTokens - 1)) ∧
    (∀ (env : TokenRegistry.TokenEnv) (s : TokenRegistry.RegistryState),
      TokenRegistry.RReachable env s →
      ∀ c, (s.creatorInfo c).totalVolume = 0) := by
  refine ⟨?_, ?_, TokenRegistry.rreachable_volume⟩
  · intro env s mv ts t d w l cat tags cr s' h
    obtain ⟨-, -, -, -, -, -, -, -, -, -, hnew, hold⟩ :=
      TokenRegistry._registerToken_ok env s mv ts t d w l cat tags cr s' h
    constructor
    · intro h0
      rw [hnew h0]
      exact ⟨rfl, rfl, rfl, rfl⟩
    · intro h0
      rw [hold h0]
      exact ⟨rfl, rfl, rfl, rfl⟩
  · intro s caller t v s' h
    obtain ⟨-, -, -, -, -, htr, hfa, -, -⟩ :=
      TokenRegistry.setTokenVerification_ok s caller t v s' h
    constructor
    · intro hv
      rw [htr hv]
    · intro hv
      rw [(hfa hv).2]

/-- Witness for C2 (amended) at the concrete registration of token 5 by new
creator 9 and the concrete verification of token 5. -/
theorem C2_creator_counters_amended_witness :
    ((TokenRegistry.reg0.creatorInfo 9).creator = 0 →
      (TokenRegistry.reg1.creatorInfo 9).totalTokens = 1 ∧
      (TokenRegistry.reg1.creatorInfo 9).lastActivity = 1000 ∧
      (TokenRegistry.reg1.creatorInfo 9).verifiedTokens = 0 ∧
      (TokenRegistry.reg1.creatorInfo 9).totalVolume = 0) ∧
    (true = true →
      (TokenRegistry.reg2.creatorInfo
          (TokenRegistry.reg1.tokenMetadata 5).creator).verifiedTokens =
        (TokenRegistry.reg1.creatorInfo
          (TokenRegistry.reg1.tokenMetadata 5).creator).verifiedTokens + 1) ∧
    (TokenRegistry.reg2.creatorInfo 9).totalVolume = 0 :=
  ⟨(C2_creator_counters_amended.1 TokenRegistry.env0 TokenRegistry.reg0
      10 1000 5 ("d") ("w") ("l") 0 [] 9 TokenRegistry.reg1 rfl).1,
   (C2_creator_counters_amended.2.1 TokenRegistry.reg1 1 5 true
      TokenRegistry.reg2 rfl).1,
   C2_creator_counters_amended.2.2 TokenRegistry.env0 TokenRegistry.reg2
      (TokenRegistry.RReachable.step TokenRegistry.reg1 TokenRegistry.rop2
        TokenRegistry.reg2
        (TokenRegistry.RReachable.step TokenRegistry.reg0 TokenRegistry.rop1
          TokenRegistry.reg1
          (TokenRegistry.RReachable.deployed 1 10 7 0 0 TokenRegistry.reg0 rfl)
          TokenRegistry.reg1_def)
        TokenRegistry.reg2_def) 9⟩

/-- C7: a deployment paying less than deploymentFee never succeeds, and
reverts precisely with InsufficientDeploymentFee once the earlier guards
pass; paying at least the fee never trips the fee check.  Likewise a
registration paying less than registrationFee never succeeds, reverts with
InsufficientRegistrationFee once the earlier guards pass, and paying at
least the fee never trips the fee check.  (An error result is a revert: no
state change.) -/
theorem C7_fee_gating :
    (∀ (s : TokenFactory.FactoryState) (caller value : Nat) (nm sy : String)
        (i m : Nat) (me be pe : Bool) (ts : Nat)
        (st : TokenFactory.FactoryState) (a : Addr),
      value < s.deploymentFee →
      TokenFactory.deployToken s caller value nm sy i m me be pe ts ≠
        .ok (st, a)) ∧
    (∀ (s : TokenFactory.FactoryState) (caller value : Nat) (nm sy : String)
        (i m : Nat) (me be pe : Bool) (ts : Nat),
      ¬s.factoryPaused = true → ¬nm.length = 0 → ¬sy.length = 0 → ¬i = 0 →
      ¬m = 0 → ¬m < i → ¬caller = 0 → value < s.deploymentFee →
      TokenFactory.deployToken s caller value nm sy i m me be pe ts =
        .error .InsufficientDeploymentFee) ∧
    (∀ (s : TokenFactory.FactoryState) (caller value : Nat) (nm sy : String)
        (i m : Nat) (me be pe : Bool) (ts : Nat),
      s.deploymentFee ≤ value →
      TokenFactory.deployToken s caller value nm sy i m me be pe ts ≠
        .error .InsufficientDeploymentFee) ∧
    (∀ (env : TokenRegistry.TokenEnv) (s : TokenRegistry.RegistryState)
        (caller mv ts : Nat) (t : Addr) (d w l : String) (cat : Nat)
        (tags : List String) (s' : TokenRegistry.RegistryState),
      mv < s.registrationFee →
      TokenRegistry.registerToken env s caller mv ts t d w l cat tags ≠
        .ok s') ∧
    (∀ (env : TokenRegistry.TokenEnv) (s : TokenRegistry.RegistryState)
        (caller mv ts : Nat) (t : Addr) (d w l : String) (cat : Nat)
        (tags : List String),
      ¬s.registryPaused = true → ¬t = 0 →
      ¬(s.tokenMetadata t).active = true → ¬s.totalCategories ≤ cat →
      mv < s.registrationFee →
      TokenRegistry.registerToken env s caller mv ts t d w l cat tags =
        .error .InsufficientRegistrationFee) ∧
    (∀ (env : TokenRegistry.TokenEnv) (s : TokenRegistry.RegistryState)
        (caller mv ts : Nat) (t : Addr) (d w l : String) (cat : Nat)
        (tags : List String),
      s.registrationFee ≤ mv →
      TokenRegistry.registerToken env s caller mv ts t d w l cat tags ≠
        .error .InsufficientRegistrationFee) := by
  refine ⟨?_, ?_, ?_, ?_, ?_, ?_⟩
  · intro s caller value nm sy i m me be pe ts st a hlow hok
    simp only [TokenFactory.deployToken, TokenFactory._deployToken,
      require_ok] at hok
    exact hok.2.2.2.2.2.2.2.1 hlow
  · intro s caller value nm sy i m me be pe ts h1 h2 h3 h4 h5 h6 h7 hlow
    simp [TokenFactory.deployToken, TokenFactory._deployToken, require,
      h1, h2, h3, h4, h5, h6, h7, hlow]
  · intro s caller value nm sy i m me be pe ts hge herr
    simp only [TokenFactory.deployToken, TokenFactory._deployToken,
      require_error] at herr
    rcases herr with ⟨-, he⟩ | ⟨-, herr⟩
    · exact TokenFactory.Err.noConfusion he
    rcases herr with ⟨-, he⟩ | ⟨-, herr⟩
    · exact TokenFactory.Err.noConfusion he
    rcases herr with ⟨-, he⟩ | ⟨-, herr⟩
    · exact TokenFactory.Err.noConfusion he
    rcases herr with ⟨-, he⟩ | ⟨-, herr⟩
    · exact TokenFactory.Err.noConfusion he
    rcases herr with ⟨-, he⟩ | ⟨-, herr⟩
    · exact TokenFactory.Err.noConfusion he
    rcases herr with ⟨-, he⟩ | ⟨-, herr⟩
    · exact TokenFactory.Err.noConfusion he
    rcases herr with ⟨-, he⟩ | ⟨-, herr⟩
    · exact TokenFactory.Err.noConfusion he
    rcases herr with ⟨hlow, -⟩ | ⟨-, herr⟩
    · exact absurd hlow (Nat.not_lt.mpr hge)
    rcases herr with ⟨-, he⟩ | ⟨-, herr⟩
    · exact TokenFactory.Err.noConfusion he
    · exact Except.noConfusion herr
  · intro env s caller mv ts t d w l cat tags s' hlow hok
    simp only [TokenRegistry.registerToken, TokenRegistry._registerToken,
      require_ok] at hok
    exact hok.2.2.2.2.1 hlow
  · intro env s caller mv ts t d w l cat tags h1 h2 h3 h4 hlow
    simp [TokenRegistry.registerToken, TokenRegistry._registerToken, require,
      h1, h2, h3, h4, hlow]
  · intro env s caller mv ts t d w l cat tags hge herr
    simp only [TokenRegistry.registerToken, TokenRegistry._registerToken,
      require_error, requireSome_error] at herr
    rcases herr with ⟨-, he⟩ | ⟨-, herr⟩
    · exact TokenRegistry.Err.noConfusion he
    rcases herr with ⟨-, he⟩ | ⟨-, herr⟩
    · exact TokenRegistry.Err.noConfusion he
    rcases herr with ⟨-, he⟩ | ⟨-, herr⟩
    · exact TokenRegistry.Err.noConfusion he
    rcases herr with ⟨-, he⟩ | ⟨-, herr⟩
    · exact TokenRegistry.Err.noConfusion he
    rcases herr with ⟨hlow, -⟩ | ⟨-, herr⟩
    · exact absurd hlow (Nat.not_lt.mpr hge)
    rcases herr with ⟨-, he⟩ | ⟨nm, -, herr⟩
    · exact TokenRegistry.Err.noConfusion he
    rcases herr with ⟨-, he⟩ | ⟨sym, -, herr⟩
    · exact TokenRegistry.Err.noConfusion he
    rcases herr with ⟨-, he⟩ | ⟨-, herr⟩
    · exact TokenRegistry.Err.noConfusion he
    rcases herr with ⟨-, he⟩ | ⟨-, herr⟩
    · exact TokenRegistry.Err.noConfusion he
    split at herr
    · exact Except.noConfusion herr
    · exact Except.noConfusion herr

/-- Witness for C7: fee 100 factory rejects a 50-wei deployment with
InsufficientDeploymentFee but accepts the fee check at 100; fee 10 registry
rejects a 5-wei registration with InsufficientRegistrationFee but accepts
the fee check at 10. -/
theorem C7_fee_gating_witness :
    TokenFactory.deployToken TokenFactory.fac0 2 50 ("Tok") ("TK") 5 10
      true true true 1000 = .error .InsufficientDeploymentFee ∧
    TokenFactory.deployToken TokenFactory.fac0 2 50 ("Tok") ("TK") 5 10
      true true true 1000 ≠ .ok (TokenFactory.fac1, 1) ∧
    TokenFactory.deployToken TokenFactory.fac0 2 100 ("Tok") ("TK") 5 10
      true true true 1000 ≠ .error .InsufficientDeploymentFee ∧
    TokenRegistry.registerToken TokenRegistry.env0 TokenRegistry.reg0 9 5 1000
      5 ("d") ("w") ("l") 0 [] = .error .InsufficientRegistrationFee ∧
    TokenRegistry.registerToken TokenRegistry.env0 TokenRegistry.reg0 9 5 1000
      5 ("d") ("w") ("l") 0 [] ≠ .ok TokenRegistry.reg1 ∧
    TokenRegistry.registerToken TokenRegistry.env0 TokenRegistry.reg0 9 10 1000
      5 ("d") ("w") ("l") 0 [] ≠ .error .InsufficientRegistrationFee :=
  ⟨C7_fee_gating.2.1 TokenFactory.fac0 2 50 ("Tok") ("TK") 5 10 true true true
      1000 (by decide) (by decide) (by decide) (by decide) (by decide)
      (by decide) (by decide) (by decide),
   C7_fee_gating.1 TokenFactory.fac0 2 50 ("Tok") ("TK") 5 10 true true true
      1000 TokenFactory.fac1 1 (by decide),
   C7_fee_gating.2.2.1 TokenFactory.fac0 2 100 ("Tok") ("TK") 5 10 true true
      true 1000 (by decide),
   C7_fee_gating.2.2.2.2.1 TokenRegistry.env0 TokenRegistry.reg0 9 5 1000 5
      ("d") ("w") ("l") 0 [] (by decide) (by decide) (by decide) (by decide)
      (by decide),
   C7_fee_gating.2.2.2.1 TokenRegistry.env0 TokenRegistry.reg0 9 5 1000 5
      ("d") ("w") ("l") 0 [] TokenRegistry.reg1 (by decide),
   C7_fee_gating.2.2.2.2.2 TokenRegistry.env0 TokenRegistry.reg0 9 10 1000 5
      ("d") ("w") ("l") 0 [] (by decide)⟩

/-- C8: `_registerToken` performs no factory-provenance check — for any
token address outside an arbitrary factory's ledger, registration succeeds
whenever the address is non-zero, not already registered, the category is
valid, the fee is paid, the registry is not paused, and the contract
answers name() and symbol() with non-empty strings. -/
theorem C8_registry_accepts_any_token :
    ∀ (env : TokenRegistry.TokenEnv) (s : TokenRegistry.RegistryState)
      (fs : TokenFactory.FactoryState) (caller mv ts : Nat) (t : Addr)
      (d w l : String) (cat : Nat) (tags : List String) (nm sym : String),
      t ∉ fs.allTokens →
      ¬s.registryPaused = true → ¬t = 0 →
      ¬(s.tokenMetadata t).active = true →
      cat < s.totalCategories → s.registrationFee ≤ mv →
      (env t).nameResult = some nm → (env t).symbolResult = some sym →
      ¬nm.length = 0 → ¬sym.length = 0 →
      ∃ s', TokenRegistry.registerToken env s caller mv ts t d w l cat tags =
        .ok s' := by
  intro env s fs caller mv ts t d w l cat tags nm sym hfs h1 h2 h3 hcat hfee
    hnm hsym h8 h9
  simp only [TokenRegistry.registerToken, TokenRegistry._registerToken,
    require, requireSome, hnm, hsym]
  simp only [if_neg h1, if_neg h2, if_neg h3, if_neg (Nat.not_le.mpr hcat),
    if_neg (Nat.not_lt.mpr hfee), if_neg h8, if_neg h9]
  split
  · exact ⟨_, rfl⟩
  · exact ⟨_, rfl⟩

/-- Witness for C8: token 5 was never deployed by the factory `fac0`
(whose ledger is empty), yet registering it in `reg0` succeeds. -/
theorem C8_registry_accepts_any_token_witness :
    ∃ s', TokenRegistry.registerToken TokenRegistry.env0 TokenRegistry.reg0
      9 10 1000 5 ("d") ("w") ("l") 0 [] = .ok s' :=
  C8_registry_accepts_any_token TokenRegistry.env0 TokenRegistry.reg0
    TokenFactory.fac0 9 10 1000 5 ("d") ("w") ("l") 0 [] ("Tok") ("TK")
    (by decide) (by decide) (by decide) (by decide) (by decide) (by decide)
    rfl rfl (by decide) (by decide)

/-- The owner verifies the already-verified token 5 a second time. -/
def TokenRegistry.reg2v : TokenRegistry.RegistryState :=
  match TokenRegistry.rstep TokenRegistry.env0 TokenRegistry.reg2
      TokenRegistry.rop2 with
  | .ok s => s
  | .error _ => TokenRegistry.emptyRegistry

/-- Re-verifying token 5 succeeds and yields `reg2v`. -/
theorem TokenRegistry.reg2v_def :
    TokenRegistry.rstep TokenRegistry.env0 TokenRegistry.reg2 TokenRegistry.rop2 =
      .ok TokenRegistry.reg2v := rfl

/-- C10: `setTokenVerification` never consults the previous verified value.
Unverifying a registered token whose creator's verifiedTokens counter is 0
reverts with the checked-arithmetic underflow panic (so, revert semantics,
all registry state is left unchanged), and re-verifying an already-verified
token increments the creator's verifiedTokens a second time. -/
theorem C10_verification_blind_to_previous :
    (∀ (s : TokenRegistry.RegistryState) (t : Addr),
      (s.tokenMetadata t).active = true →
      (s.creatorInfo (s.tokenMetadata t).creator).verifiedTokens = 0 →
      TokenRegistry.setTokenVerification s s.owner t false =
        .error .ArithmeticUnderflow) ∧
    (∀ (s : TokenRegistry.RegistryState) (t : Addr)
        (s' : TokenRegistry.RegistryState),
      (s.tokenMetadata t).verified = true →
      TokenRegistry.setTokenVerification s s.owner t true = .ok s' →
      (s'.creatorInfo (s.tokenMetadata t).creator).verifiedTokens =
        (s.creatorInfo (s.tokenMetadata t).creator).verifiedTokens + 1) := by
  constructor
  · intro s t hact hz
    exact TokenRegistry.setTokenVerification_underflow s t hact hz
  · intro s t s' hverified h
    obtain ⟨-, -, -, -, -, htr, -, -, -⟩ :=
      TokenRegistry.setTokenVerification_ok s s.owner t true s' h
    rw [htr rfl]

/-- Witness for C10: in `reg1` token 5's creator has verifiedTokens 0, so
unverifying panics; in `reg2` token 5 is already verified and re-verifying
bumps the counter from 1 to 2. -/
theorem C10_verification_blind_to_previous_witness :
    TokenRegistry.setTokenVerification TokenRegistry.reg1
      TokenRegistry.reg1.owner 5 false = .error .ArithmeticUnderflow ∧
    (TokenRegistry.reg2v.creatorInfo
        (TokenRegistry.reg2.tokenMetadata 5).creator).verifiedTokens =
      (TokenRegistry.reg2.creatorInfo
        (TokenRegistry.reg2.tokenMetadata 5).creator).verifiedTokens + 1 :=
  ⟨C10_verification_blind_to_previous.1 TokenRegistry.reg1 5 (by decide)
      (by decide),
   C10_verification_blind_to_previous.2 TokenRegistry.reg2 5
      TokenRegistry.reg2v (by decide) rfl⟩
